import Mathlib

/-!
Verification development for the Klaviyo review-event extractor
(`klaviyo_review_extractor.py`).

The Python source is shallowly embedded:

* dates (used by `generate_date_chunks`) become a `Date` structure with
  explicit Gregorian-calendar arithmetic mirroring
  `datetime`/`timedelta(days=1)`/`relativedelta(months=n)`;
* JSON-like Python values become the inductive `PyVal`; Python `dict.get`,
  `dict.items`, truthiness and `dict` update are modelled exactly,
  including the `AttributeError` raised when `.get`/`.items` is invoked on
  a non-dict value (modelled in the `Except String` monad);
* the HTTP transport is an oracle parameter: a page fetch outcome is a
  `PageResult` (network error, or a status code with a body), a detail
  fetch outcome is an `Except`/`Option` value.

The Python `while` loop of `generate_date_chunks` is written with explicit
fuel; the fuel `mi e + 2 - mi s` (month index difference plus two) is
proved sufficient for every valid pair of dates, so on the inputs the
program can actually receive (valid `%Y-%m-%d` dates) the embedding agrees
with the source.
-/

/-! ## Date model (datetime, timedelta(days=1), relativedelta(months=n)) -/

def isLeap (y : Nat) : Bool :=
  (y % 4 == 0 && !(y % 100 == 0)) || y % 400 == 0

def daysInMonth (y m : Nat) : Nat :=
  if m = 2 then (if isLeap y then 29 else 28)
  else if m = 4 ∨ m = 6 ∨ m = 9 ∨ m = 11 then 30
  else 31

structure Date where
  year : Nat
  month : Nat
  day : Nat
  deriving DecidableEq, Repr

/-- A date is valid when it denotes an actual Gregorian calendar day
(`datetime.strptime` with format `%Y-%m-%d` only ever produces such dates). -/
def Date.Valid (d : Date) : Prop :=
  1 ≤ d.year ∧ 1 ≤ d.month ∧ d.month ≤ 12 ∧ 1 ≤ d.day ∧ d.day ≤ daysInMonth d.year d.month

instance (d : Date) : Decidable d.Valid := by
  unfold Date.Valid; exact inferInstance

/-- Strict comparison of `datetime` values: lexicographic on (year, month, day). -/
def dlt (a b : Date) : Prop :=
  a.year < b.year ∨ (a.year = b.year ∧ (a.month < b.month ∨ (a.month = b.month ∧ a.day < b.day)))

instance (a b : Date) : Decidable (dlt a b) := by
  unfold dlt; exact inferInstance

/-- Non-strict comparison of `datetime` values (`current_start <= end_dt`). -/
def dle (a b : Date) : Prop := ¬ dlt b a

instance (a b : Date) : Decidable (dle a b) := by
  unfold dle; exact inferInstance

/-- Python `min` of two dates: returns the second argument only when it is
strictly smaller. -/
def dmin (a b : Date) : Date := if dlt b a then b else a

/-- Python `d + timedelta(days=1)`. -/
def addDay (d : Date) : Date :=
  if d.day < daysInMonth d.year d.month then ⟨d.year, d.month, d.day + 1⟩
  else if d.month < 12 then ⟨d.year, d.month + 1, 1⟩
  else ⟨d.year + 1, 1, 1⟩

/-- Python `d - timedelta(days=1)`. -/
def subDay (d : Date) : Date :=
  if 2 ≤ d.day then ⟨d.year, d.month, d.day - 1⟩
  else if 2 ≤ d.month then ⟨d.year, d.month - 1, daysInMonth d.year (d.month - 1)⟩
  else ⟨d.year - 1, 12, 31⟩

/-- Python `d + relativedelta(months=n)`: advance the month index by `n` and clamp
the day to the length of the target month. -/
def addMonths (d : Date) (n : Nat) : Date :=
  ⟨d.year + (d.month - 1 + n) / 12, (d.month - 1 + n) % 12 + 1,
    min d.day (daysInMonth (d.year + (d.month - 1 + n) / 12) ((d.month - 1 + n) % 12 + 1))⟩

/-- Month index of a date, used to bound the number of loop iterations of
`generate_date_chunks`. -/
def mi (d : Date) : Nat := 12 * d.year + d.month

/-- One iteration body of the `while current_start <= end_dt` loop of
`KlaviyoReviewExtractor.generate_date_chunks`, with explicit fuel. -/
def chunksLoop (n : Nat) : Nat → Date → Date → List (Date × Date)
  | 0, _, _ => []
  | fuel + 1, cur, e =>
    if dle cur e then
      (cur, dmin (subDay (addMonths cur n)) e) ::
        chunksLoop n fuel (addDay (dmin (subDay (addMonths cur n)) e)) e
    else []

/-- Model of `KlaviyoReviewExtractor.generate_date_chunks(start_date, end_date, chunk_months=1)`.
Dates are modelled in parsed form (`strptime`/`strftime` translate between
`YYYY-MM-DD` strings and valid `Date` values bijectively). -/
def generate_date_chunks (start_date end_date : Date) (chunk_months : Nat := 1) :
    List (Date × Date) :=
  chunksLoop chunk_months (mi end_date + 2 - mi start_date) start_date end_date

/-! ## Python value model -/

/-- JSON-like Python runtime values as handled by the extractor (plus
tuples, which Python distinguishes from lists in `isinstance(value, list)`). -/
inductive PyVal where
  | vnone
  | vbool (b : Bool)
  | vint (n : Int)
  | vstr (s : String)
  | vlist (xs : List PyVal)
  | vtuple (xs : List PyVal)
  | vdict (entries : List (String × PyVal))

/-- A Python dict, in insertion order (keys unique for dicts built by the
interpreter; the model keeps the first occurrence authoritative, matching
lookup semantics). -/
abbrev Entries := List (String × PyVal)

/-- Python truthiness (`if x:`, `x or y`). -/
def truthy : PyVal → Bool
  | PyVal.vnone => false
  | PyVal.vbool b => b
  | PyVal.vint n => decide (n ≠ 0)
  | PyVal.vstr s => !s.isEmpty
  | PyVal.vlist xs => !xs.isEmpty
  | PyVal.vtuple xs => !xs.isEmpty
  | PyVal.vdict es => !es.isEmpty

/-- Python `d.get(k, dflt)` on the entry list of a dict. -/
def lookupD (es : Entries) (k : String) (dflt : PyVal) : PyVal :=
  match es.find? (fun p => p.1 == k) with
  | Option.some p => p.2
  | Option.none => dflt

/-- Key lookup returning an `Option` (used to state claims). -/
def lookupRow (es : Entries) (k : String) : Option PyVal :=
  (es.find? (fun p => p.1 == k)).map Prod.snd

/-- Python `k in d` for a dict entry list. -/
def hasKeyL (es : Entries) (k : String) : Bool :=
  es.any (fun p => p.1 == k)

/-- Python `v.get(k, dflt)`: succeeds on dict values, raises
`AttributeError` on anything else. -/
def pyGetD : PyVal → String → PyVal → Except String PyVal
  | PyVal.vdict es, k, dflt => Except.ok (lookupD es k dflt)
  | _, _, _ => Except.error "AttributeError"

/-- Python `v.items()`: succeeds on dict values, raises otherwise. -/
def pyItems : PyVal → Except String Entries
  | PyVal.vdict es => Except.ok es
  | _ => Except.error "AttributeError"

/-- Python `d[k] = v`: replace in place when the key exists, else append. -/
def dictSet (es : Entries) (k : String) (v : PyVal) : Entries :=
  if hasKeyL es k then es.map (fun p => if p.1 == k then (k, v) else p)
  else es ++ [(k, v)]

/-- Python `d.update({...})`: set each literal entry in order. -/
def updates (es : Entries) (kvs : Entries) : Entries :=
  kvs.foldl (fun a kv => dictSet a kv.1 kv.2) es

/-- Python `key.startswith("CQ:")` (modelled on the character list, which
the kernel can evaluate). -/
def startsWithCQ (k : String) : Bool :=
  "CQ:".data.isPrefixOf k.data

mutual

/-- Python `repr` for the modelled values. -/
def pyRepr : PyVal → String
  | PyVal.vnone => "None"
  | PyVal.vbool true => "True"
  | PyVal.vbool false => "False"
  | PyVal.vint n => toString n
  | PyVal.vstr s => "'" ++ s ++ "'"
  | PyVal.vlist xs => "[" ++ String.intercalate ", " (pyReprList xs) ++ "]"
  | PyVal.vtuple xs =>
    "(" ++ String.intercalate ", " (pyReprList xs) ++ (if xs.length = 1 then ",)" else ")")
  | PyVal.vdict es => "\x7b" ++ String.intercalate ", " (pyReprEntries es) ++ "\x7d"

def pyReprList : List PyVal → List String
  | [] => []
  | x :: xs => pyRepr x :: pyReprList xs

def pyReprEntries : List (String × PyVal) → List String
  | [] => []
  | (k, v) :: es => ("'" ++ k ++ "': " ++ pyRepr v) :: pyReprEntries es

end

/-- Python `str` for the modelled values (`map(str, value)`). -/
def pyStr : PyVal → String
  | PyVal.vstr s => s
  | v => pyRepr v

/-! ## Record extractor (`KlaviyoReviewExtractor.extract_review_data`) -/

/-- Value stored for a CQ field: a list is joined with `", "` after
stringifying each element; anything else is stored unchanged
(lines 215-219 of the source). -/
def cqValue : PyVal → PyVal
  | PyVal.vlist xs => PyVal.vstr (String.intercalate ", " (xs.map pyStr))
  | v => v

/-- The `for key, value in properties.items()` loop copying `CQ:`-prefixed
entries (lines 212-219). -/
def cqFold (props : Entries) (row : Entries) : Entries :=
  props.foldl (fun r kv => if startsWithCQ kv.1 then dictSet r kv.1 (cqValue kv.2) else r) row

/-- The eleven fixed review attribute keys (lines 222-226). -/
def review_fields : List String :=
  ["review_verified", "review_email", "review_id", "review_rating",
   "review_author", "review_status", "review_has_media",
   "review_content", "review_title", "review_link", "is_store_review"]

/-- Loop `for field in review_fields: row_data[field] = properties.get(field)`
(lines 228-229). -/
def reviewFold (props : Entries) (row : Entries) : Entries :=
  review_fields.foldl (fun r f => dictSet r f (lookupD props f PyVal.vnone)) row

/-- The nine product/variant output columns (lines 235-245). -/
def nineProductKeys : List String :=
  ["product_id", "product_title", "product_handle", "product_type",
   "product_vendor", "product_tags", "variant_id", "variant_title", "variant_sku"]

/-- Body of the `if product_data:` branch (lines 233-245): fetch
`variant` first, then the six product fields and the three variant fields,
and update the row with all nine keys at once. -/
def productRow (product_data : PyVal) (row : Entries) : Except String Entries := do
  let variant0 ← pyGetD product_data "variant" PyVal.vnone
  let pid ← pyGetD product_data "id" PyVal.vnone
  let ptitle ← pyGetD product_data "title" PyVal.vnone
  let phandle ← pyGetD product_data "handle" PyVal.vnone
  let ptype ← pyGetD product_data "product_type" PyVal.vnone
  let pvendor ← pyGetD product_data "vendor" PyVal.vnone
  let ptags ← pyGetD product_data "tags" PyVal.vnone
  let vid ← pyGetD (if truthy variant0 then variant0 else PyVal.vdict []) "id" PyVal.vnone
  let vtitle ← pyGetD (if truthy variant0 then variant0 else PyVal.vdict []) "title" PyVal.vnone
  let vsku ← pyGetD (if truthy variant0 then variant0 else PyVal.vdict []) "sku" PyVal.vnone
  pure (updates row
    [("product_id", pid), ("product_title", ptitle), ("product_handle", phandle),
     ("product_type", ptype), ("product_vendor", pvendor), ("product_tags", ptags),
     ("variant_id", vid), ("variant_title", vtitle), ("variant_sku", vsku)])

/-- Lines 232-245: `product_data = properties.get("product", {})` followed by
the truthiness-guarded update. -/
def productSection (props : Entries) (row : Entries) : Except String Entries :=
  if truthy (lookupD props "product" (PyVal.vdict [])) then
    productRow (lookupD props "product" (PyVal.vdict [])) row
  else pure row

/-- Body of the `if structured_product:` branch (lines 249-254). -/
def structuredRow (sp : PyVal) (row : Entries) : Except String Entries := do
  let sname ← pyGetD sp "product_name" PyVal.vnone
  let surl ← pyGetD sp "url" PyVal.vnone
  let simg ← pyGetD sp "image_url" PyVal.vnone
  pure (updates row
    [("structured_product_name", sname), ("structured_product_url", surl),
     ("structured_product_image_url", simg)])

/-- Lines 248-254: `structured_product = properties.get("structured_product", {})`
followed by the truthiness-guarded update. -/
def structuredSection (props : Entries) (row : Entries) : Except String Entries :=
  if truthy (lookupD props "structured_product" (PyVal.vdict [])) then
    structuredRow (lookupD props "structured_product" (PyVal.vdict [])) row
  else pure row

/-- Line 203: `attributes.get("event_properties", {}) or attributes.get("properties", {})`. -/
def locateBag (attributes : PyVal) : Except String PyVal := do
  let ep ← pyGetD attributes "event_properties" (PyVal.vdict [])
  if truthy ep then pure ep
  else pyGetD attributes "properties" (PyVal.vdict [])

/-- Line 209: `attributes.get("profile", {}).get("data", {}).get("attributes", {}).get("email")`. -/
def profileEmail (attributes : PyVal) : Except String PyVal := do
  let pr ← pyGetD attributes "profile" (PyVal.vdict [])
  let da ← pyGetD pr "data" (PyVal.vdict [])
  let at2 ← pyGetD da "attributes" (PyVal.vdict [])
  pyGetD at2 "email" PyVal.vnone

/-- Lines 206-210: the initial `row_data` dict literal (`event.get("id")`,
`attributes.get("datetime")`, profile email chain, in evaluation order). -/
def seedRow (event attributes : PyVal) : Except String Entries := do
  let eid ← pyGetD event "id" PyVal.vnone
  let edt ← pyGetD attributes "datetime" PyVal.vnone
  let em ← profileEmail attributes
  pure [("event_id", eid), ("event_datetime", edt), ("profile_email", em)]

/-- One iteration of the `for event in events` loop of
`extract_review_data` (lines 200-256), in source evaluation order. -/
def extractRow (event : PyVal) : Except String Entries := do
  let attributes ← pyGetD event "attributes" (PyVal.vdict [])
  let properties ← locateBag attributes
  let row0 ← seedRow event attributes
  let props ← pyItems properties
  let row3 ← productSection props (reviewFold props (cqFold props row0))
  structuredSection props row3

/-- Model of `KlaviyoReviewExtractor.extract_review_data(events)` (lines 196-258).
A Python exception is modelled as `Except.error`. -/
def extract_review_data (events : List PyVal) : Except String (List Entries) :=
  events.mapM extractRow

/-! ## API client and orchestration -/

/-- Outcome of one page request made by `fetch_review_events`: a transport
exception, or a response with an HTTP status, a parsed `data` event list and
the presence of a `links.next` URL. -/
inductive PageResult where
  | netError (msg : String)
  | response (status : Nat) (events : List PyVal) (hasNext : Bool)

/-- Events carried by a page outcome. -/
def pageEvents : PageResult → List PyVal
  | PageResult.netError _ => []
  | PageResult.response _ evs _ => evs

/-- A page outcome that lets pagination continue: success status and a
`next` link. -/
def pageOk : PageResult → Bool
  | PageResult.netError _ => false
  | PageResult.response st _ nx => decide (st < 400) && nx

/-- A page outcome on which `raise_for_status` raises or the transport
itself raised (both are `requests.exceptions.RequestException`s). -/
def pageFail : PageResult → Bool
  | PageResult.netError _ => true
  | PageResult.response st _ _ => decide (400 ≤ st)

/-- Model of `KlaviyoReviewExtractor.fetch_review_events` (lines 97-122): follow the
chain of page outcomes, accumulating `data` lists, stopping after a page
without a `next` link, and breaking (returning what was accumulated) on a
transport error or a `raise_for_status` failure. -/
def fetch_review_events : List PageResult → List PyVal
  | [] => []
  | PageResult.netError _ :: _ => []
  | PageResult.response st evs nx :: rest =>
    if 400 ≤ st then []
    else evs ++ (if nx then fetch_review_events rest else [])

/-- Model of `KlaviyoReviewExtractor.get_event_by_id` (lines 32-47): `None` on a
transport exception or on any non-200 status, the response body on 200. -/
def get_event_by_id (resp : Except String (Nat × PyVal)) : Option PyVal :=
  match resp with
  | Except.error _ => Option.none
  | Except.ok (st, body) => if st = 200 then Option.some body else Option.none

/-- Model of `KlaviyoReviewExtractor.get_detailed_event_data` (lines 124-144) with
the per-id fetch abstracted as the oracle `detail`: append
`event_data.get("data")` for each id whose detail fetch returned a truthy
payload, silently skipping the rest. -/
def get_detailed_event_data (detail : PyVal → Option PyVal) (ids : List PyVal) :
    Except String (List PyVal) :=
  ids.foldlM (fun acc i =>
    match detail i with
    | Option.none => pure acc
    | Option.some d =>
      if truthy d then do
        let v ← pyGetD d "data" PyVal.vnone
        pure (acc ++ [v])
      else pure acc) []

/-- Model of `KlaviyoReviewExtractor.process_date_range_in_chunks` (lines 164-194)
with the chunk fetch and the detail fetch abstracted as oracles. -/
def process_date_range_in_chunks (fetch : Date → Date → List PyVal)
    (detail : PyVal → Option PyVal) (s e : Date) (detailed : Bool) :
    Except String (List Entries) :=
  (generate_date_chunks s e).foldlM (fun acc c =>
    if (fetch c.1 c.2).isEmpty then pure acc
    else do
      let evs ← if detailed then do
          let ids ← (fetch c.1 c.2).mapM (fun ev => pyGetD ev "id" PyVal.vnone)
          get_detailed_event_data detail ids
        else pure (fetch c.1 c.2)
      let rows ← extract_review_data evs
      pure (acc ++ rows)) []

/-! ## Table writer (`save_to_csv`) and the tail of `main` -/

/-- Column set of the output table: union of row keys in first-occurrence
order (the `pd.DataFrame` column construction). -/
def unionKeys (rows : List Entries) : List String :=
  rows.foldl (fun acc r => r.foldl (fun a kv => if a.contains kv.1 then a else a ++ [kv.1]) acc) []

/-- Rendering of one cell in the CSV (missing/None become empty). -/
def csvCell : PyVal → String
  | PyVal.vnone => ""
  | v => pyStr v

/-- The written table: header plus one line per row, empty cells for absent
keys. -/
def mkTable (rows : List Entries) : List String × List (List String) :=
  (unionKeys rows, rows.map (fun r => (unionKeys rows).map (fun k =>
    match lookupRow r k with
    | Option.some v => csvCell v
    | Option.none => "")))

/-- Model of `KlaviyoReviewExtractor.save_to_csv` (lines 260-269): `none` models
"no file written" (the `if not data: return` branch). -/
def save_to_csv (data : List Entries) : Option (List String × List (List String)) :=
  if data.isEmpty then Option.none else Option.some (mkTable data)

/-- Tail of `main` (lines 303-315): extract all rows, return early (no
file) when no review events were found, otherwise hand the rows to
`save_to_csv`. -/
def main_output (fetch : Date → Date → List PyVal) (detail : PyVal → Option PyVal)
    (s e : Date) (detailed : Bool) :
    Except String (Option (List String × List (List String))) := do
  let rows ← process_date_range_in_chunks fetch detail s e detailed
  if rows.isEmpty then pure Option.none
  else pure (save_to_csv rows)

/-! ## Basic date lemmas -/

theorem daysInMonth_pos (y m : Nat) : 1 ≤ daysInMonth y m := by
  unfold daysInMonth
  split <;> [skip; split] <;> first | split <;> omega | omega

theorem daysInMonth_le (y m : Nat) : daysInMonth y m ≤ 31 := by
  unfold daysInMonth
  split <;> [skip; split] <;> first | split <;> omega | omega

theorem daysInMonth_dec (y : Nat) : daysInMonth y 12 = 31 := by
  unfold daysInMonth
  norm_num

theorem dlt_irrefl (a : Date) : ¬ dlt a a := by
  unfold dlt; omega

theorem dlt_asymm (a b : Date) (h : dlt a b) : ¬ dlt b a := by
  unfold dlt at *; omega

theorem eq_of_not_dlt (a b : Date) (h1 : ¬ dlt a b) (h2 : ¬ dlt b a) : a = b := by
  cases a; cases b
  unfold dlt at *
  simp_all
  omega

theorem dlt_trans (a b c : Date) (h1 : dlt a b) (h2 : dlt b c) : dlt a c := by
  unfold dlt at h1 h2 ⊢; omega

theorem dle_refl (a : Date) : dle a a := dlt_irrefl a

theorem dle_of_dlt (a b : Date) (h : dlt a b) : dle a b := dlt_asymm a b h

theorem dlt_of_dlt_of_dle (a b c : Date) (h1 : dlt a b) (h2 : dle b c) : dlt a c := by
  unfold dle at h2; unfold dlt at h1 h2 ⊢; omega

theorem dle_trans (a b c : Date) (h1 : dle a b) (h2 : dle b c) : dle a c := by
  unfold dle at h1 h2 ⊢; unfold dlt at h1 h2 ⊢; omega

theorem dlt_of_dle_of_dlt (a b c : Date) (h1 : dle a b) (h2 : dlt b c) : dlt a c := by
  unfold dle at h1; unfold dlt at h1 h2 ⊢; omega

theorem addDay_valid (d : Date) (h : d.Valid) : (addDay d).Valid := by
  obtain ⟨y, m, dy⟩ := d
  unfold Date.Valid at h
  unfold addDay
  dsimp only at h ⊢
  split_ifs with h1 h2
  · unfold Date.Valid; dsimp only; omega
  · unfold Date.Valid; dsimp only
    have := daysInMonth_pos y (m + 1)
    omega
  · unfold Date.Valid; dsimp only
    have := daysInMonth_pos (y + 1) 1
    omega

theorem dlt_addDay (d : Date) : dlt d (addDay d) := by
  obtain ⟨y, m, dy⟩ := d
  unfold addDay
  dsimp only
  split_ifs with h1 h2 <;> (unfold dlt; dsimp only; omega)

theorem addDay_le_of_dlt (a b : Date) (ha : a.Valid) (hb : b.Valid) (h : dlt a b) :
    dle (addDay a) b := by
  obtain ⟨ay, am, ad⟩ := a
  obtain ⟨by1, bm, bd⟩ := b
  unfold Date.Valid at ha hb
  unfold dlt at h
  dsimp only at h ha hb
  rcases h with h | ⟨hy, h⟩
  · unfold addDay; dsimp only
    split_ifs with h1 h2 <;> (unfold dle dlt; dsimp only; omega)
  · subst hy
    rcases h with h | ⟨hm, h⟩
    · unfold addDay; dsimp only
      split_ifs with h1 h2 <;> (unfold dle dlt; dsimp only; omega)
    · subst hm
      unfold addDay; dsimp only
      split_ifs with h1 h2 <;> (unfold dle dlt; dsimp only; omega)

theorem subDay_spec (x : Date) (hx : x.Valid) (hgt : dlt ⟨1, 1, 1⟩ x) :
    (subDay x).Valid ∧ addDay (subDay x) = x := by
  obtain ⟨y, m, dy⟩ := x
  unfold Date.Valid at hx
  unfold dlt at hgt
  dsimp only at hx hgt
  unfold subDay
  dsimp only
  split_ifs with h1 h2
  · constructor
    · unfold Date.Valid; dsimp only; omega
    · unfold addDay; dsimp only
      split_ifs with h3 h4
      · simp only [Date.mk.injEq, true_and]; omega
      · exfalso; omega
      · exfalso; omega
  · constructor
    · unfold Date.Valid; dsimp only
      refine ⟨by omega, by omega, by omega, daysInMonth_pos y (m - 1), le_refl _⟩
    · unfold addDay; dsimp only
      split_ifs with h3 h4
      · exfalso; omega
      · simp only [Date.mk.injEq, true_and]; omega
      · exfalso; omega
  · have hy2 : 2 ≤ y := by omega
    constructor
    · unfold Date.Valid; dsimp only
      have := daysInMonth_dec (y - 1)
      omega
    · unfold addDay; dsimp only
      have hdd := daysInMonth_dec (y - 1)
      split_ifs with h3 h4
      · exfalso; omega
      · exfalso; omega
      · simp only [Date.mk.injEq]; omega

theorem addMonths_valid (d : Date) (n : Nat) (h : d.Valid) : (addMonths d n).Valid := by
  obtain ⟨y, m, dy⟩ := d
  unfold Date.Valid at h
  unfold addMonths Date.Valid
  dsimp only at h ⊢
  have hp := daysInMonth_pos (y + (m - 1 + n) / 12) ((m - 1 + n) % 12 + 1)
  have hmod : (m - 1 + n) % 12 < 12 := Nat.mod_lt _ (by omega)
  omega

theorem mi_addMonths (d : Date) (n : Nat) (h : 1 ≤ d.month) : mi (addMonths d n) = mi d + n := by
  obtain ⟨y, m, dy⟩ := d
  unfold mi addMonths
  dsimp only at h ⊢
  have := Nat.div_add_mod (m - 1 + n) 12
  omega

theorem addMonths_day1 (d : Date) (n : Nat) (h : d.day = 1) : (addMonths d n).day = 1 := by
  unfold addMonths
  dsimp only
  rw [h]
  exact Nat.min_eq_left (daysInMonth_pos _ _)

theorem dlt_of_mi_lt (a b : Date) (h1 : 1 ≤ a.month) (h2 : b.month ≤ 12) (h : mi a < mi b) :
    dlt a b := by
  unfold mi at h; unfold dlt; omega

theorem mi_le_of_dle (a b : Date) (h1 : a.month ≤ 12) (h2 : 1 ≤ b.month) (h : dle a b) :
    mi a ≤ mi b := by
  unfold dle at h; unfold dlt at h; unfold mi; omega

theorem mi_ge_13 (d : Date) (h : d.Valid) : 13 ≤ mi d := by
  unfold Date.Valid at h; unfold mi; omega

theorem mi_lt_of_dlt_day1 (e M : Date) (he : e.Valid) (hM : M.day = 1) (hMm : 1 ≤ M.month)
    (h : dlt e M) : mi e < mi M := by
  unfold Date.Valid at he; unfold dlt at h; unfold mi; omega

theorem chunksLoop_nil (n f : Nat) (cur e : Date) (h : ¬ dle cur e) :
    chunksLoop n f cur e = [] := by
  cases f with
  | zero => rfl
  | succ f => simp only [chunksLoop, if_neg h]

/-- Master invariant of the `generate_date_chunks` loop (chunk_months = 1):
for sufficient fuel the produced chunk list is non-empty, starts at `cur`,
ends at `e`, is day-adjacent, every chunk end follows the
`min(start + 1 month - 1 day, end)` formula, and the number of chunks is
bounded by the month span (with equality when `cur` is a first-of-month). -/
theorem chunksLoop_spec (e : Date) (he : e.Valid) :
    ∀ fuel cur, cur.Valid → dle cur e → mi e < mi cur + fuel →
      chunksLoop 1 fuel cur e ≠ [] ∧
      (chunksLoop 1 fuel cur e).head?.map Prod.fst = some cur ∧
      (chunksLoop 1 fuel cur e).getLast?.map Prod.snd = some e ∧
      List.Chain' (fun a b => b.1 = addDay a.2) (chunksLoop 1 fuel cur e) ∧
      (∀ c ∈ chunksLoop 1 fuel cur e, c.2 = dmin (subDay (addMonths c.1 1)) e) ∧
      (chunksLoop 1 fuel cur e).length ≤ mi e + 1 - mi cur ∧
      (cur.day = 1 → (chunksLoop 1 fuel cur e).length = mi e + 1 - mi cur) := by
  intro fuel
  induction fuel with
  | zero =>
    intro cur hv hle hf
    exfalso
    have := mi_le_of_dle cur e hv.2.2.1 he.2.1 hle
    omega
  | succ fuel ih =>
    intro cur hv hle hf
    have hMv : (addMonths cur 1).Valid := addMonths_valid cur 1 hv
    have hmiM : mi (addMonths cur 1) = mi cur + 1 := mi_addMonths cur 1 hv.2.1
    have h13 : 13 ≤ mi cur := mi_ge_13 cur hv
    have h111 : dlt ⟨1, 1, 1⟩ (addMonths cur 1) := by
      apply dlt_of_mi_lt _ _ (by decide) hMv.2.2.1
      have h13eq : mi (⟨1, 1, 1⟩ : Date) = 13 := rfl
      omega
    have hsub := subDay_spec (addMonths cur 1) hMv h111
    have hsv := hsub.1
    have hsa := hsub.2
    have hslt : dlt (subDay (addMonths cur 1)) (addMonths cur 1) := by
      have h2 := dlt_addDay (subDay (addMonths cur 1))
      rwa [hsa] at h2
    have hmile : mi cur ≤ mi e := mi_le_of_dle cur e hv.2.2.1 he.2.1 hle
    simp only [chunksLoop, if_pos hle]
    by_cases hce : dle e (subDay (addMonths cur 1))
    · have hdm : dmin (subDay (addMonths cur 1)) e = e := by
        unfold dmin
        split_ifs with hx
        · rfl
        · exact (eq_of_not_dlt e (subDay (addMonths cur 1)) hx hce).symm
      rw [hdm]
      have hstop : ¬ dle (addDay e) e := fun hcon => hcon (dlt_addDay e)
      rw [chunksLoop_nil 1 fuel (addDay e) e hstop]
      refine ⟨by simp, by simp, by simp, by simp, ?_, ?_, ?_⟩
      · intro c hc
        simp only [List.mem_singleton] at hc
        subst hc
        dsimp only
        exact hdm.symm
      · simp only [List.length_singleton]
        omega
      · intro hday
        have hMday : (addMonths cur 1).day = 1 := addMonths_day1 cur 1 hday
        have heM : dlt e (addMonths cur 1) :=
          dlt_of_dle_of_dlt e (subDay (addMonths cur 1)) (addMonths cur 1) hce hslt
        have hlt := mi_lt_of_dlt_day1 e (addMonths cur 1) he hMday hMv.2.1 heM
        simp only [List.length_singleton]
        omega
    · have hces : dlt (subDay (addMonths cur 1)) e := by
        by_contra hx
        exact hce hx
      have hdm : dmin (subDay (addMonths cur 1)) e = subDay (addMonths cur 1) := by
        unfold dmin
        rw [if_neg (dlt_asymm _ _ hces)]
      rw [hdm, hsa]
      have hMle : dle (addMonths cur 1) e := by
        have h2 := addDay_le_of_dlt (subDay (addMonths cur 1)) e hsv he hces
        rwa [hsa] at h2
      have hmiMe : mi (addMonths cur 1) ≤ mi e := mi_le_of_dle _ e hMv.2.2.1 he.2.1 hMle
      obtain ⟨ih1, ih2, ih3, ih4, ih5, ih6, ih7⟩ := ih (addMonths cur 1) hMv hMle (by omega)
      obtain ⟨t, T, hT⟩ : ∃ t T, chunksLoop 1 fuel (addMonths cur 1) e = t :: T := by
        cases hx : chunksLoop 1 fuel (addMonths cur 1) e with
        | nil => exact absurd hx ih1
        | cons t T => exact ⟨t, T, rfl⟩
      have ht1 : t.1 = addMonths cur 1 := by
        rw [hT] at ih2
        simpa using ih2
      refine ⟨by simp, by simp, ?_, ?_, ?_, ?_, ?_⟩
      · rw [hT, List.getLast?_cons_cons]
        rw [hT] at ih3
        exact ih3
      · rw [hT]
        rw [hT] at ih4
        refine List.chain'_cons'.mpr ⟨?_, ih4⟩
        intro b hb
        simp only [List.head?_cons, Option.mem_def, Option.some.injEq] at hb
        subst hb
        dsimp only
        rw [hsa]
        exact ht1
      · intro c hc
        rcases List.mem_cons.mp hc with hc | hc
        · subst hc
          dsimp only
          exact hdm.symm
        · exact ih5 c hc
      · simp only [List.length_cons]
        omega
      · intro hday
        have hMday := addMonths_day1 cur 1 hday
        have hlen := ih7 hMday
        simp only [List.length_cons]
        omega

/-! ## Except and BEq helpers -/

theorem ebind_ok {α β : Type} (a : α) (f : α → Except String β) :
    (Except.ok a >>= f) = f a := rfl

theorem ebind_err {α β : Type} (e : String) (f : α → Except String β) :
    ((Except.error e : Except String α) >>= f) = Except.error e := rfl

theorem epure {α : Type} (a : α) : (pure a : Except String α) = Except.ok a := rfl

theorem emap_ok {α β : Type} (f : α → β) (a : α) :
    (f <$> (Except.ok a : Except String α)) = Except.ok (f a) := rfl

theorem emap_err {α β : Type} (f : α → β) (e : String) :
    (f <$> (Except.error e : Except String α)) = Except.error e := rfl

theorem str_beq_comm (a b : String) : (a == b) = (b == a) := by
  cases h1 : a == b with
  | true =>
    rw [eq_of_beq h1]
    exact (beq_self_eq_true b).symm
  | false =>
    cases h2 : b == a with
    | true =>
      rw [eq_of_beq h2] at h1
      rw [beq_self_eq_true] at h1
      exact h1.symm ▸ rfl
    | false => rfl

theorem str_beq_false_of_ne (a b : String) (h : a ≠ b) : (a == b) = false := by
  cases hb : a == b with
  | true => exact absurd (eq_of_beq hb) h
  | false => rfl

/-! ## Dict operation lemmas -/

theorem lookupRow_cons (p : String × PyVal) (es : Entries) (k : String) :
    lookupRow (p :: es) k = if p.1 == k then Option.some p.2 else lookupRow es k := by
  by_cases h : p.1 == k
  · simp [lookupRow, List.find?, h]
  · simp only [Bool.not_eq_true] at h
    simp [lookupRow, List.find?, h]

theorem hasKeyL_cons (p : String × PyVal) (es : Entries) (k : String) :
    hasKeyL (p :: es) k = ((p.1 == k) || hasKeyL es k) := by
  simp [hasKeyL]

theorem hasKeyL_map_replace (es : Entries) (k : String) (v : PyVal) (q : String) :
    hasKeyL (es.map (fun p => if p.1 == k then (k, v) else p)) q = hasKeyL es q := by
  induction es with
  | nil => rfl
  | cons p es ih =>
    by_cases hp : p.1 == k
    · simp only [List.map_cons, if_pos hp, hasKeyL_cons, ih]
      rw [eq_of_beq hp]
    · simp only [List.map_cons, if_neg hp, hasKeyL_cons, ih]

theorem lookupRow_map_replace_self (es : Entries) (k : String) (v : PyVal)
    (h : hasKeyL es k = true) :
    lookupRow (es.map (fun p => if p.1 == k then (k, v) else p)) k = Option.some v := by
  induction es with
  | nil => simp [hasKeyL] at h
  | cons p es ih =>
    by_cases hp : p.1 == k
    · simp only [List.map_cons, if_pos hp]
      rw [lookupRow_cons]
      simp
    · simp only [List.map_cons, if_neg hp]
      rw [lookupRow_cons]
      simp only [Bool.not_eq_true] at hp
      rw [hp, if_neg (by simp)]
      apply ih
      rw [hasKeyL_cons, hp, Bool.false_or] at h
      exact h

theorem lookupRow_map_replace_ne (es : Entries) (k : String) (v : PyVal) (q : String)
    (hkq : (k == q) = false) :
    lookupRow (es.map (fun p => if p.1 == k then (k, v) else p)) q = lookupRow es q := by
  induction es with
  | nil => rfl
  | cons p es ih =>
    by_cases hp : p.1 == k
    · simp only [List.map_cons, if_pos hp]
      rw [lookupRow_cons, lookupRow_cons, ih]
      have hpq : (p.1 == q) = false := by
        rw [eq_of_beq hp]
        exact hkq
      rw [hkq, hpq]
      simp
    · simp only [List.map_cons, if_neg hp]
      rw [lookupRow_cons, lookupRow_cons, ih]

theorem lookupRow_append_self (es : Entries) (k : String) (v : PyVal)
    (h : hasKeyL es k = false) :
    lookupRow (es ++ [(k, v)]) k = Option.some v := by
  induction es with
  | nil => simp [lookupRow, List.find?]
  | cons p es ih =>
    rw [hasKeyL_cons] at h
    simp only [Bool.or_eq_false_iff] at h
    rw [List.cons_append, lookupRow_cons, h.1, if_neg (by simp)]
    exact ih h.2

theorem lookupRow_append_ne (es : Entries) (k : String) (v : PyVal) (q : String)
    (hkq : (k == q) = false) :
    lookupRow (es ++ [(k, v)]) q = lookupRow es q := by
  induction es with
  | nil => simp [lookupRow, List.find?, hkq]
  | cons p es ih =>
    rw [List.cons_append, lookupRow_cons, lookupRow_cons, ih]

theorem hasKeyL_append_single (es : Entries) (k : String) (v : PyVal) (q : String) :
    hasKeyL (es ++ [(k, v)]) q = (hasKeyL es q || (k == q)) := by
  induction es with
  | nil => simp [hasKeyL]
  | cons p es ih =>
    rw [List.cons_append, hasKeyL_cons, hasKeyL_cons, ih, Bool.or_assoc]

theorem hasKeyL_dictSet (es : Entries) (k : String) (v : PyVal) (q : String) :
    hasKeyL (dictSet es k v) q = ((q == k) || hasKeyL es q) := by
  unfold dictSet
  split_ifs with h
  · rw [hasKeyL_map_replace]
    cases hq : q == k with
    | true =>
      rw [eq_of_beq hq]
      simp [h]
    | false => simp
  · rw [hasKeyL_append_single, str_beq_comm k q]
    cases hasKeyL es q <;> cases hq : q == k <;> simp

theorem lookupRow_dictSet_self (es : Entries) (k : String) (v : PyVal) :
    lookupRow (dictSet es k v) k = Option.some v := by
  unfold dictSet
  split_ifs with h
  · exact lookupRow_map_replace_self es k v h
  · exact lookupRow_append_self es k v (by simpa using h)

theorem lookupRow_dictSet_ne (es : Entries) (k : String) (v : PyVal) (q : String)
    (h : (q == k) = false) :
    lookupRow (dictSet es k v) q = lookupRow es q := by
  have hkq : (k == q) = false := by rw [str_beq_comm]; exact h
  unfold dictSet
  split_ifs with hmem
  · exact lookupRow_map_replace_ne es k v q hkq
  · exact lookupRow_append_ne es k v q hkq

theorem lookupD_eq_of_lookupRow (es : Entries) (k : String) (d v : PyVal)
    (h : lookupRow es k = Option.some v) : lookupD es k d = v := by
  unfold lookupD
  unfold lookupRow at h
  cases hf : es.find? (fun p => p.1 == k) with
  | none => rw [hf] at h; simp at h
  | some p =>
    rw [hf] at h
    have h2 : p.2 = v := by simpa using h
    exact h2

theorem lookupD_of_hasKey_false (es : Entries) (k : String) (d : PyVal)
    (h : hasKeyL es k = false) : lookupD es k d = d := by
  induction es with
  | nil => rfl
  | cons p es ih =>
    rw [hasKeyL_cons] at h
    simp only [Bool.or_eq_false_iff] at h
    unfold lookupD
    simp only [List.find?, h.1]
    exact ih h.2

theorem lookupRow_of_hasKey_false (es : Entries) (k : String)
    (h : hasKeyL es k = false) : lookupRow es k = Option.none := by
  induction es with
  | nil => rfl
  | cons p es ih =>
    rw [hasKeyL_cons] at h
    simp only [Bool.or_eq_false_iff] at h
    rw [lookupRow_cons, h.1, if_neg (by simp)]
    exact ih h.2

theorem lookupRow_updates_ne (row kvs : Entries) (k : String)
    (h : ∀ kv ∈ kvs, (k == kv.1) = false) :
    lookupRow (updates row kvs) k = lookupRow row k := by
  induction kvs generalizing row with
  | nil => rfl
  | cons kv kvs ih =>
    unfold updates at ih ⊢
    rw [List.foldl_cons, ih _ (fun x hx => h x (List.mem_cons_of_mem kv hx)),
      lookupRow_dictSet_ne _ _ _ _ (h kv (List.mem_cons_self kv kvs))]

theorem hasKeyL_updates (row kvs : Entries) (k : String) :
    hasKeyL (updates row kvs) k = (hasKeyL row k || kvs.any (fun kv => k == kv.1)) := by
  induction kvs generalizing row with
  | nil => simp [updates]
  | cons kv kvs ih =>
    unfold updates at ih ⊢
    rw [List.foldl_cons, ih, hasKeyL_dictSet]
    cases hasKeyL row k <;> cases hk : k == kv.1 <;> simp [hk]

/-! ## Stage lemmas for the record extractor -/

theorem beq_false_of_cq_mismatch (k q : String) (h1 : startsWithCQ k = true)
    (h2 : startsWithCQ q = false) : (k == q) = false := by
  cases hb : k == q with
  | true =>
    rw [eq_of_beq hb] at h1
    rw [h1] at h2
    exact h2.symm ▸ rfl
  | false => rfl

theorem lookupRow_updates_mem (row kvs : Entries) (k : String) (v : PyVal)
    (hmem : (k, v) ∈ kvs) (hnd : (kvs.map Prod.fst).Nodup) :
    lookupRow (updates row kvs) k = Option.some v := by
  induction kvs generalizing row with
  | nil => simp at hmem
  | cons kv kvs ih =>
    simp only [List.map_cons, List.nodup_cons] at hnd
    unfold updates
    rw [List.foldl_cons]
    rcases List.mem_cons.mp hmem with heq | hmem2
    · subst heq
      have hrest : ∀ kv2 ∈ kvs, (k == kv2.1) = false := by
        intro kv2 hkv2
        apply str_beq_false_of_ne
        intro hk
        have hmap : kv2.1 ∈ List.map Prod.fst kvs := List.mem_map_of_mem Prod.fst hkv2
        rw [← hk] at hmap
        exact hnd.1 hmap
      rw [show (List.foldl (fun a kv => dictSet a kv.1 kv.2)
          (dictSet row (k, v).1 (k, v).2) kvs) = updates (dictSet row k v) kvs from rfl]
      rw [lookupRow_updates_ne _ _ _ hrest]
      exact lookupRow_dictSet_self row k v
    · exact ih _ hmem2 hnd.2

theorem cqFold_cons (kv : String × PyVal) (props row : Entries) :
    cqFold (kv :: props) row =
      cqFold props (if startsWithCQ kv.1 then dictSet row kv.1 (cqValue kv.2) else row) := rfl

theorem cqFold_lookup_not_cq (props row : Entries) (k : String)
    (h : startsWithCQ k = false) :
    lookupRow (cqFold props row) k = lookupRow row k := by
  induction props generalizing row with
  | nil => rfl
  | cons kv props ih =>
    rw [cqFold_cons]
    by_cases hcq : startsWithCQ kv.1
    · rw [if_pos hcq, ih]
      apply lookupRow_dictSet_ne
      rw [str_beq_comm]
      exact beq_false_of_cq_mismatch kv.1 k hcq h
    · rw [if_neg hcq]
      exact ih row

theorem cqFold_hasKey_not_cq (props row : Entries) (k : String)
    (h : startsWithCQ k = false) :
    hasKeyL (cqFold props row) k = hasKeyL row k := by
  induction props generalizing row with
  | nil => rfl
  | cons kv props ih =>
    rw [cqFold_cons]
    by_cases hcq : startsWithCQ kv.1
    · have hne : (k == kv.1) = false := by
        rw [str_beq_comm]
        exact beq_false_of_cq_mismatch kv.1 k hcq h
      rw [if_pos hcq, ih, hasKeyL_dictSet, hne]
      simp
    · rw [if_neg hcq]
      exact ih row

theorem cqFold_lookup_not_key (props row : Entries) (k : String)
    (h : ∀ kv ∈ props, (k == kv.1) = false) :
    lookupRow (cqFold props row) k = lookupRow row k := by
  induction props generalizing row with
  | nil => rfl
  | cons kv props ih =>
    rw [cqFold_cons]
    have htl := fun x hx => h x (List.mem_cons_of_mem kv hx)
    by_cases hcq : startsWithCQ kv.1
    · rw [if_pos hcq, ih _ htl]
      exact lookupRow_dictSet_ne _ _ _ _ (h kv (List.mem_cons_self kv props))
    · rw [if_neg hcq]
      exact ih row htl

theorem cqFold_lookup_mem (props row : Entries) (k : String) (v : PyVal)
    (hnd : (props.map Prod.fst).Nodup) (hmem : (k, v) ∈ props)
    (hcq : startsWithCQ k = true) :
    lookupRow (cqFold props row) k = Option.some (cqValue v) := by
  induction props generalizing row with
  | nil => simp at hmem
  | cons kv props ih =>
    simp only [List.map_cons, List.nodup_cons] at hnd
    rw [cqFold_cons]
    rcases List.mem_cons.mp hmem with heq | hmem2
    · subst heq
      rw [if_pos hcq]
      have hrest : ∀ kv2 ∈ props, (k == kv2.1) = false := by
        intro kv2 hkv2
        apply str_beq_false_of_ne
        intro hk
        have hmap : kv2.1 ∈ List.map Prod.fst props := List.mem_map_of_mem Prod.fst hkv2
        rw [← hk] at hmap
        exact hnd.1 hmap
      rw [cqFold_lookup_not_key props _ k hrest]
      exact lookupRow_dictSet_self row k (cqValue v)
    · by_cases hc : startsWithCQ kv.1
      · rw [if_pos hc]
        exact ih _ hnd.2 hmem2
      · rw [if_neg hc]
        exact ih row hnd.2 hmem2

theorem fieldFold_lookup_ne (fs : List String) (props row : Entries) (k : String)
    (h : ∀ f ∈ fs, (k == f) = false) :
    lookupRow (fs.foldl (fun r f => dictSet r f (lookupD props f PyVal.vnone)) row) k =
      lookupRow row k := by
  induction fs generalizing row with
  | nil => rfl
  | cons f fs ih =>
    rw [List.foldl_cons]
    rw [ih _ (fun x hx => h x (List.mem_cons_of_mem f hx))]
    exact lookupRow_dictSet_ne _ _ _ _ (h f (List.mem_cons_self f fs))

theorem fieldFold_hasKey (fs : List String) (props row : Entries) (k : String) :
    hasKeyL (fs.foldl (fun r f => dictSet r f (lookupD props f PyVal.vnone)) row) k =
      (hasKeyL row k || fs.any (fun f => k == f)) := by
  induction fs generalizing row with
  | nil => simp
  | cons f fs ih =>
    rw [List.foldl_cons, ih, hasKeyL_dictSet]
    cases hasKeyL row k <;> cases hk : k == f <;> simp [hk]

theorem reviewFold_lookup_ne (props row : Entries) (k : String)
    (h : ∀ f ∈ review_fields, (k == f) = false) :
    lookupRow (reviewFold props row) k = lookupRow row k :=
  fieldFold_lookup_ne review_fields props row k h

theorem reviewFold_hasKey (props row : Entries) (k : String) :
    hasKeyL (reviewFold props row) k =
      (hasKeyL row k || review_fields.any (fun f => k == f)) :=
  fieldFold_hasKey review_fields props row k

/-! ## Product and structured-product section lemmas -/

theorem structuredRow_dict (sp : Entries) (row : Entries) :
    structuredRow (PyVal.vdict sp) row = Except.ok (updates row
      [("structured_product_name", lookupD sp "product_name" PyVal.vnone),
       ("structured_product_url", lookupD sp "url" PyVal.vnone),
       ("structured_product_image_url", lookupD sp "image_url" PyVal.vnone)]) := rfl

theorem structuredRow_ok_shape (p : PyVal) (row out : Entries)
    (h : structuredRow p row = Except.ok out) :
    ∃ sp : Entries, p = PyVal.vdict sp ∧ out = updates row
      [("structured_product_name", lookupD sp "product_name" PyVal.vnone),
       ("structured_product_url", lookupD sp "url" PyVal.vnone),
       ("structured_product_image_url", lookupD sp "image_url" PyVal.vnone)] := by
  cases p with
  | vdict sp =>
    rw [structuredRow_dict] at h
    injection h with h2
    exact ⟨sp, rfl, h2.symm⟩
  | vnone => exact Except.noConfusion h
  | vbool b => exact Except.noConfusion h
  | vint n => exact Except.noConfusion h
  | vstr s => exact Except.noConfusion h
  | vlist xs => exact Except.noConfusion h
  | vtuple xs => exact Except.noConfusion h

theorem productRow_dict (pd vd : Entries) (row : Entries)
    (hv : (if truthy (lookupD pd "variant" PyVal.vnone) then lookupD pd "variant" PyVal.vnone
        else PyVal.vdict []) = PyVal.vdict vd) :
    productRow (PyVal.vdict pd) row = Except.ok (updates row
      [("product_id", lookupD pd "id" PyVal.vnone),
       ("product_title", lookupD pd "title" PyVal.vnone),
       ("product_handle", lookupD pd "handle" PyVal.vnone),
       ("product_type", lookupD pd "product_type" PyVal.vnone),
       ("product_vendor", lookupD pd "vendor" PyVal.vnone),
       ("product_tags", lookupD pd "tags" PyVal.vnone),
       ("variant_id", lookupD vd "id" PyVal.vnone),
       ("variant_title", lookupD vd "title" PyVal.vnone),
       ("variant_sku", lookupD vd "sku" PyVal.vnone)]) := by
  unfold productRow
  simp only [pyGetD, ebind_ok, hv, epure]

theorem productRow_ok_shape (p : PyVal) (row out : Entries)
    (h : productRow p row = Except.ok out) :
    ∃ pd vd : Entries, p = PyVal.vdict pd ∧
      (if truthy (lookupD pd "variant" PyVal.vnone) then lookupD pd "variant" PyVal.vnone
        else PyVal.vdict []) = PyVal.vdict vd ∧
      out = updates row
      [("product_id", lookupD pd "id" PyVal.vnone),
       ("product_title", lookupD pd "title" PyVal.vnone),
       ("product_handle", lookupD pd "handle" PyVal.vnone),
       ("product_type", lookupD pd "product_type" PyVal.vnone),
       ("product_vendor", lookupD pd "vendor" PyVal.vnone),
       ("product_tags", lookupD pd "tags" PyVal.vnone),
       ("variant_id", lookupD vd "id" PyVal.vnone),
       ("variant_title", lookupD vd "title" PyVal.vnone),
       ("variant_sku", lookupD vd "sku" PyVal.vnone)] := by
  cases p with
  | vdict pd =>
    cases hv : (if truthy (lookupD pd "variant" PyVal.vnone) then lookupD pd "variant" PyVal.vnone
        else PyVal.vdict []) with
    | vdict vd =>
      rw [productRow_dict pd vd row hv] at h
      injection h with h2
      exact ⟨pd, vd, rfl, hv, h2.symm⟩
    | vnone => unfold productRow at h; simp [pyGetD, ebind_ok, ebind_err, emap_ok, emap_err, hv] at h
    | vbool b => unfold productRow at h; simp [pyGetD, ebind_ok, ebind_err, emap_ok, emap_err, hv] at h
    | vint n => unfold productRow at h; simp [pyGetD, ebind_ok, ebind_err, emap_ok, emap_err, hv] at h
    | vstr s => unfold productRow at h; simp [pyGetD, ebind_ok, ebind_err, emap_ok, emap_err, hv] at h
    | vlist xs => unfold productRow at h; simp [pyGetD, ebind_ok, ebind_err, emap_ok, emap_err, hv] at h
    | vtuple xs => unfold productRow at h; simp [pyGetD, ebind_ok, ebind_err, emap_ok, emap_err, hv] at h
  | vnone => exact Except.noConfusion h
  | vbool b => exact Except.noConfusion h
  | vint n => exact Except.noConfusion h
  | vstr s => exact Except.noConfusion h
  | vlist xs => exact Except.noConfusion h
  | vtuple xs => exact Except.noConfusion h

theorem productSection_falsy (props row : Entries)
    (h : truthy (lookupD props "product" (PyVal.vdict [])) = false) :
    productSection props row = Except.ok row := by
  unfold productSection
  rw [h]
  simp [epure]

theorem productSection_truthy (props row : Entries)
    (h : truthy (lookupD props "product" (PyVal.vdict [])) = true) :
    productSection props row = productRow (lookupD props "product" (PyVal.vdict [])) row := by
  unfold productSection
  rw [h]
  simp

theorem structuredSection_falsy (props row : Entries)
    (h : truthy (lookupD props "structured_product" (PyVal.vdict [])) = false) :
    structuredSection props row = Except.ok row := by
  unfold structuredSection
  rw [h]
  simp [epure]

theorem structuredSection_truthy (props row : Entries)
    (h : truthy (lookupD props "structured_product" (PyVal.vdict [])) = true) :
    structuredSection props row =
      structuredRow (lookupD props "structured_product" (PyVal.vdict [])) row := by
  unfold structuredSection
  rw [h]
  simp

theorem structuredSection_lookup_ne (props row out : Entries) (k : String)
    (h : structuredSection props row = Except.ok out)
    (h1 : (k == "structured_product_name") = false)
    (h2 : (k == "structured_product_url") = false)
    (h3 : (k == "structured_product_image_url") = false) :
    lookupRow out k = lookupRow row k := by
  by_cases ht : truthy (lookupD props "structured_product" (PyVal.vdict [])) = true
  · rw [structuredSection_truthy props row ht] at h
    obtain ⟨sp, hsp, hout⟩ := structuredRow_ok_shape _ row out h
    subst hout
    apply lookupRow_updates_ne
    intro kv hkv
    simp only [List.mem_cons, List.not_mem_nil, or_false] at hkv
    rcases hkv with hkv | hkv | hkv <;> rw [hkv] <;> assumption
  · rw [structuredSection_falsy props row (by simpa using ht)] at h
    injection h with h4
    rw [h4]

theorem structuredSection_hasKey_ne (props row out : Entries) (k : String)
    (h : structuredSection props row = Except.ok out)
    (h1 : (k == "structured_product_name") = false)
    (h2 : (k == "structured_product_url") = false)
    (h3 : (k == "structured_product_image_url") = false) :
    hasKeyL out k = hasKeyL row k := by
  by_cases ht : truthy (lookupD props "structured_product" (PyVal.vdict [])) = true
  · rw [structuredSection_truthy props row ht] at h
    obtain ⟨sp, hsp, hout⟩ := structuredRow_ok_shape _ row out h
    subst hout
    rw [hasKeyL_updates]
    simp only [List.any_cons, List.any_nil, h1, h2, h3]
    simp
  · rw [structuredSection_falsy props row (by simpa using ht)] at h
    injection h with h4
    rw [h4]

/-! ## Inversion of the extractor pipeline -/

theorem seedRow_ok_shape (ev attrs : PyVal) (row0 : Entries)
    (h : seedRow ev attrs = Except.ok row0) :
    ∃ eid edt em, pyGetD ev "id" PyVal.vnone = Except.ok eid ∧
      pyGetD attrs "datetime" PyVal.vnone = Except.ok edt ∧
      profileEmail attrs = Except.ok em ∧
      row0 = [("event_id", eid), ("event_datetime", edt), ("profile_email", em)] := by
  unfold seedRow at h
  cases h1 : pyGetD ev "id" PyVal.vnone with
  | error e => rw [h1, ebind_err] at h; exact Except.noConfusion h
  | ok eid =>
    rw [h1, ebind_ok] at h
    cases h2 : pyGetD attrs "datetime" PyVal.vnone with
    | error e => rw [h2, ebind_err] at h; exact Except.noConfusion h
    | ok edt =>
      rw [h2, ebind_ok] at h
      cases h3 : profileEmail attrs with
      | error e =>
        rw [h3] at h
        simp only [ebind_err, emap_err] at h
        exact Except.noConfusion h
      | ok em =>
        rw [h3] at h
        simp only [ebind_ok, emap_ok, epure] at h
        refine ⟨eid, edt, em, rfl, rfl, rfl, ?_⟩
        injection h with h4
        exact h4.symm

theorem extractRow_ok_shape (ev : PyVal) (row : Entries) (h : extractRow ev = Except.ok row) :
    ∃ attrs bag row0 props row3,
      pyGetD ev "attributes" (PyVal.vdict []) = Except.ok attrs ∧
      locateBag attrs = Except.ok bag ∧
      seedRow ev attrs = Except.ok row0 ∧
      pyItems bag = Except.ok props ∧
      productSection props (reviewFold props (cqFold props row0)) = Except.ok row3 ∧
      structuredSection props row3 = Except.ok row := by
  unfold extractRow at h
  cases h1 : pyGetD ev "attributes" (PyVal.vdict []) with
  | error e => rw [h1, ebind_err] at h; exact Except.noConfusion h
  | ok attrs =>
    rw [h1, ebind_ok] at h
    cases h2 : locateBag attrs with
    | error e => rw [h2, ebind_err] at h; exact Except.noConfusion h
    | ok bag =>
      rw [h2, ebind_ok] at h
      cases h3 : seedRow ev attrs with
      | error e => rw [h3, ebind_err] at h; exact Except.noConfusion h
      | ok row0 =>
        rw [h3, ebind_ok] at h
        cases h4 : pyItems bag with
        | error e => rw [h4, ebind_err] at h; exact Except.noConfusion h
        | ok props =>
          rw [h4, ebind_ok] at h
          cases h5 : productSection props (reviewFold props (cqFold props row0)) with
          | error e => rw [h5, ebind_err] at h; exact Except.noConfusion h
          | ok row3 =>
            rw [h5, ebind_ok] at h
            exact ⟨attrs, bag, row0, props, row3, rfl, h2, h3, h4, h5, h⟩

/-! ## Profile chain, bag location and section preservation -/

theorem dle_dmin_left (a b : Date) : dle (dmin a b) a := by
  unfold dmin
  split_ifs with h
  · exact dle_of_dlt b a h
  · exact dle_refl a

theorem profileEmail_no_profile (a1 : Entries) (h : hasKeyL a1 "profile" = false) :
    profileEmail (PyVal.vdict a1) = Except.ok PyVal.vnone := by
  unfold profileEmail
  simp only [pyGetD, ebind_ok]
  rw [lookupD_of_hasKey_false _ _ _ h]
  rfl

theorem profileEmail_no_data (a1 a2 : Entries)
    (h1 : lookupRow a1 "profile" = Option.some (PyVal.vdict a2))
    (h2 : hasKeyL a2 "data" = false) :
    profileEmail (PyVal.vdict a1) = Except.ok PyVal.vnone := by
  unfold profileEmail
  simp only [pyGetD, ebind_ok]
  rw [lookupD_eq_of_lookupRow _ _ _ _ h1]
  simp only [pyGetD, ebind_ok]
  rw [lookupD_of_hasKey_false _ _ _ h2]
  rfl

theorem profileEmail_no_attributes (a1 a2 a3 : Entries)
    (h1 : lookupRow a1 "profile" = Option.some (PyVal.vdict a2))
    (h2 : lookupRow a2 "data" = Option.some (PyVal.vdict a3))
    (h3 : hasKeyL a3 "attributes" = false) :
    profileEmail (PyVal.vdict a1) = Except.ok PyVal.vnone := by
  unfold profileEmail
  simp only [pyGetD, ebind_ok]
  rw [lookupD_eq_of_lookupRow _ _ _ _ h1]
  simp only [pyGetD, ebind_ok]
  rw [lookupD_eq_of_lookupRow _ _ _ _ h2]
  simp only [pyGetD, ebind_ok]
  rw [lookupD_of_hasKey_false _ _ _ h3]
  rfl

theorem profileEmail_no_email (a1 a2 a3 a4 : Entries)
    (h1 : lookupRow a1 "profile" = Option.some (PyVal.vdict a2))
    (h2 : lookupRow a2 "data" = Option.some (PyVal.vdict a3))
    (h3 : lookupRow a3 "attributes" = Option.some (PyVal.vdict a4))
    (h4 : hasKeyL a4 "email" = false) :
    profileEmail (PyVal.vdict a1) = Except.ok PyVal.vnone := by
  unfold profileEmail
  simp only [pyGetD, ebind_ok]
  rw [lookupD_eq_of_lookupRow _ _ _ _ h1]
  simp only [pyGetD, ebind_ok]
  rw [lookupD_eq_of_lookupRow _ _ _ _ h2]
  simp only [pyGetD, ebind_ok]
  rw [lookupD_eq_of_lookupRow _ _ _ _ h3]
  simp only [pyGetD]
  rw [lookupD_of_hasKey_false _ _ _ h4]

theorem locateBag_truthy (aes : Entries)
    (h : truthy (lookupD aes "event_properties" (PyVal.vdict [])) = true) :
    locateBag (PyVal.vdict aes) =
      Except.ok (lookupD aes "event_properties" (PyVal.vdict [])) := by
  unfold locateBag
  simp only [pyGetD, ebind_ok]
  rw [h]
  simp [epure]

theorem locateBag_falsy (aes : Entries)
    (h : truthy (lookupD aes "event_properties" (PyVal.vdict [])) = false) :
    locateBag (PyVal.vdict aes) = Except.ok (lookupD aes "properties" (PyVal.vdict [])) := by
  unfold locateBag
  simp only [pyGetD, ebind_ok]
  rw [h]
  simp [pyGetD]

theorem locateBag_both_absent (aes : Entries)
    (h1 : hasKeyL aes "event_properties" = false) (h2 : hasKeyL aes "properties" = false) :
    locateBag (PyVal.vdict aes) = Except.ok (PyVal.vdict []) := by
  rw [locateBag_falsy aes (by rw [lookupD_of_hasKey_false _ _ _ h1]; rfl)]
  rw [lookupD_of_hasKey_false _ _ _ h2]

theorem productSection_lookup_ne (props row out : Entries) (k : String)
    (h : productSection props row = Except.ok out)
    (hk : ∀ f ∈ nineProductKeys, (k == f) = false) :
    lookupRow out k = lookupRow row k := by
  by_cases ht : truthy (lookupD props "product" (PyVal.vdict [])) = true
  · rw [productSection_truthy props row ht] at h
    obtain ⟨pd, vd, hpd, hvd, hout⟩ := productRow_ok_shape _ row out h
    subst hout
    apply lookupRow_updates_ne
    intro kv hkv
    simp only [List.mem_cons, List.not_mem_nil, or_false] at hkv
    rcases hkv with h' | h' | h' | h' | h' | h' | h' | h' | h' <;> rw [h'] <;>
      dsimp only <;> exact hk _ (by decide)
  · rw [productSection_falsy props row (by simpa using ht)] at h
    injection h with h'
    rw [h']

theorem productSection_hasKey_ne (props row out : Entries) (k : String)
    (h : productSection props row = Except.ok out)
    (hk : ∀ f ∈ nineProductKeys, (k == f) = false) :
    hasKeyL out k = hasKeyL row k := by
  by_cases ht : truthy (lookupD props "product" (PyVal.vdict [])) = true
  · rw [productSection_truthy props row ht] at h
    obtain ⟨pd, vd, hpd, hvd, hout⟩ := productRow_ok_shape _ row out h
    subst hout
    rw [hasKeyL_updates]
    have hany : List.any
        [("product_id", lookupD pd "id" PyVal.vnone),
         ("product_title", lookupD pd "title" PyVal.vnone),
         ("product_handle", lookupD pd "handle" PyVal.vnone),
         ("product_type", lookupD pd "product_type" PyVal.vnone),
         ("product_vendor", lookupD pd "vendor" PyVal.vnone),
         ("product_tags", lookupD pd "tags" PyVal.vnone),
         ("variant_id", lookupD vd "id" PyVal.vnone),
         ("variant_title", lookupD vd "title" PyVal.vnone),
         ("variant_sku", lookupD vd "sku" PyVal.vnone)] (fun kv => k == kv.1) = false := by
      simp only [List.any_cons, List.any_nil]
      rw [hk "product_id" (by decide), hk "product_title" (by decide),
        hk "product_handle" (by decide), hk "product_type" (by decide),
        hk "product_vendor" (by decide), hk "product_tags" (by decide),
        hk "variant_id" (by decide), hk "variant_title" (by decide),
        hk "variant_sku" (by decide)]
      rfl
    rw [hany]
    simp
  · rw [productSection_falsy props row (by simpa using ht)] at h
    injection h with h'
    rw [h']

theorem extractRow_profile_email (ev : PyVal) (row : Entries) (a p : PyVal)
    (hrow : extractRow ev = Except.ok row)
    (ha : pyGetD ev "attributes" (PyVal.vdict []) = Except.ok a)
    (hp : profileEmail a = Except.ok p) :
    lookupRow row "profile_email" = Option.some p := by
  obtain ⟨attrs, bag, row0, props, row3, h1, h2, h3, h4, h5, h6⟩ :=
    extractRow_ok_shape ev row hrow
  rw [ha] at h1
  injection h1 with h1
  subst h1
  obtain ⟨eid, edt, em, g1, g2, g3, g4⟩ := seedRow_ok_shape ev a row0 h3
  rw [hp] at g3
  injection g3 with g3
  subst g3
  subst g4
  rw [structuredSection_lookup_ne props row3 row "profile_email" h6 (by decide) (by decide)
    (by decide)]
  rw [productSection_lookup_ne props _ row3 "profile_email" h5 (by decide)]
  rw [reviewFold_lookup_ne props _ "profile_email" (by decide)]
  rw [cqFold_lookup_not_cq props _ "profile_email" (by decide)]
  rfl

/-! ## Claim theorems -/

/-- C1: for every pair of valid dates with start ≤ end, `generate_date_chunks`
returns a non-empty ordered sequence of sub-ranges whose first sub-range
starts at start, whose last sub-range ends at end, in which each subsequent
sub-range starts exactly one day after the previous sub-range's end, and in
which every sub-range's end is `min(start + 1 calendar month - 1 day, end)`. -/
theorem c1_chunks_cover (s e : Date) (hs : s.Valid) (he : e.Valid) (hle : dle s e) :
    generate_date_chunks s e ≠ [] ∧
    (generate_date_chunks s e).head?.map Prod.fst = some s ∧
    (generate_date_chunks s e).getLast?.map Prod.snd = some e ∧
    List.Chain' (fun a b => b.1 = addDay a.2) (generate_date_chunks s e) ∧
    ∀ c ∈ generate_date_chunks s e, c.2 = dmin (subDay (addMonths c.1 1)) e := by
  have hmile : mi s ≤ mi e := mi_le_of_dle s e hs.2.2.1 he.2.1 hle
  have h := chunksLoop_spec e he (mi e + 2 - mi s) s hs hle (by omega)
  exact ⟨h.1, h.2.1, h.2.2.1, h.2.2.2.1, h.2.2.2.2.1⟩

/-- Witness for C1 at the concrete range 2024-01-15 .. 2024-03-10. -/
theorem c1_chunks_cover_witness :
    generate_date_chunks ⟨2024, 1, 15⟩ ⟨2024, 3, 10⟩ ≠ [] ∧
    (generate_date_chunks ⟨2024, 1, 15⟩ ⟨2024, 3, 10⟩).head?.map Prod.fst =
      some ⟨2024, 1, 15⟩ ∧
    (generate_date_chunks ⟨2024, 1, 15⟩ ⟨2024, 3, 10⟩).getLast?.map Prod.snd =
      some ⟨2024, 3, 10⟩ ∧
    List.Chain' (fun a b => b.1 = addDay a.2)
      (generate_date_chunks ⟨2024, 1, 15⟩ ⟨2024, 3, 10⟩) ∧
    ∀ c ∈ generate_date_chunks ⟨2024, 1, 15⟩ ⟨2024, 3, 10⟩,
      c.2 = dmin (subDay (addMonths c.1 1)) ⟨2024, 3, 10⟩ :=
  c1_chunks_cover ⟨2024, 1, 15⟩ ⟨2024, 3, 10⟩ (by decide) (by decide) (by decide)

/-- C2 counterexample: the range 2024-01-15 .. 2024-02-10 touches two
distinct calendar months (January and February 2024), yet
`generate_date_chunks` yields a single sub-range, not two. -/
theorem c2_counterexample :
    generate_date_chunks ⟨2024, 1, 15⟩ ⟨2024, 2, 10⟩ = [(⟨2024, 1, 15⟩, ⟨2024, 2, 10⟩)] ∧
    (generate_date_chunks ⟨2024, 1, 15⟩ ⟨2024, 2, 10⟩).length = 1 ∧
    mi ⟨2024, 2, 10⟩ - mi ⟨2024, 1, 15⟩ + 1 = 2 :=
  ⟨by decide, by decide, by decide⟩

/-- C2 amended: for every valid range spanning N > 1 distinct calendar
months (N = month index difference + 1), the chunks are contiguous
(each end + 1 day = next start), cover the range exactly (first starts at
start, last ends at end), no sub-range exceeds one calendar month
(end ≤ start + 1 month - 1 day), and the number of sub-ranges is at least 1
and at most N — exactly N when the start is the first day of its month. -/
theorem c2_chunks_month_span (s e : Date) (hs : s.Valid) (he : e.Valid) (hle : dle s e)
    (hN : mi s < mi e) :
    (generate_date_chunks s e).head?.map Prod.fst = some s ∧
    (generate_date_chunks s e).getLast?.map Prod.snd = some e ∧
    List.Chain' (fun a b => b.1 = addDay a.2) (generate_date_chunks s e) ∧
    (∀ c ∈ generate_date_chunks s e, dle c.2 (subDay (addMonths c.1 1))) ∧
    1 ≤ (generate_date_chunks s e).length ∧
    (generate_date_chunks s e).length ≤ mi e - mi s + 1 ∧
    (s.day = 1 → (generate_date_chunks s e).length = mi e - mi s + 1) := by
  have hmile : mi s ≤ mi e := mi_le_of_dle s e hs.2.2.1 he.2.1 hle
  unfold generate_date_chunks
  obtain ⟨h1, h2, h3, h4, h5, h6, h7⟩ :=
    chunksLoop_spec e he (mi e + 2 - mi s) s hs hle (by omega)
  refine ⟨h2, h3, h4, ?_, ?_, ?_, ?_⟩
  · intro c hc
    rw [h5 c hc]
    exact dle_dmin_left _ _
  · have hpos := List.length_pos.mpr h1
    omega
  · omega
  · intro hd
    have := h7 hd
    omega

/-- Witness for the amended C2 at the concrete range 2024-01-01 .. 2024-03-10
(three calendar months, start on a first-of-month). -/
theorem c2_chunks_month_span_witness :
    (generate_date_chunks ⟨2024, 1, 1⟩ ⟨2024, 3, 10⟩).head?.map Prod.fst =
      some ⟨2024, 1, 1⟩ ∧
    (generate_date_chunks ⟨2024, 1, 1⟩ ⟨2024, 3, 10⟩).getLast?.map Prod.snd =
      some ⟨2024, 3, 10⟩ ∧
    List.Chain' (fun a b => b.1 = addDay a.2)
      (generate_date_chunks ⟨2024, 1, 1⟩ ⟨2024, 3, 10⟩) ∧
    (∀ c ∈ generate_date_chunks ⟨2024, 1, 1⟩ ⟨2024, 3, 10⟩,
      dle c.2 (subDay (addMonths c.1 1))) ∧
    1 ≤ (generate_date_chunks ⟨2024, 1, 1⟩ ⟨2024, 3, 10⟩).length ∧
    (generate_date_chunks ⟨2024, 1, 1⟩ ⟨2024, 3, 10⟩).length =
      mi ⟨2024, 3, 10⟩ - mi ⟨2024, 1, 1⟩ + 1 := by
  obtain ⟨h1, h2, h3, h4, h5, h6, h7⟩ :=
    c2_chunks_month_span ⟨2024, 1, 1⟩ ⟨2024, 3, 10⟩ (by decide) (by decide) (by decide)
      (by decide)
  exact ⟨h1, h2, h3, h4, h5, h7 rfl⟩

/-- C9: when start is strictly after end, `generate_date_chunks` returns the
empty sequence, and `process_date_range_in_chunks` returns an empty row list
with no fetch performed (the chunk loop body never runs, for every fetch and
detail oracle) and no error. -/
theorem c9_reversed_range (s e : Date) (h : dlt e s) :
    generate_date_chunks s e = [] ∧
    ∀ (fetch : Date → Date → List PyVal) (detail : PyVal → Option PyVal) (detailed : Bool),
      process_date_range_in_chunks fetch detail s e detailed = Except.ok [] := by
  have hnle : ¬ dle s e := fun hc => hc h
  have h0 : generate_date_chunks s e = [] := chunksLoop_nil 1 _ s e hnle
  refine ⟨h0, ?_⟩
  intro fetch detail detailed
  unfold process_date_range_in_chunks
  rw [h0]
  rfl

/-- Witness for C9 at 2024-05-01 .. 2024-04-30, with a fetch oracle that
would return a malformed event if it were ever called. -/
theorem c9_reversed_range_witness :
    generate_date_chunks ⟨2024, 5, 1⟩ ⟨2024, 4, 30⟩ = [] ∧
    process_date_range_in_chunks (fun _ _ => [PyVal.vnone]) (fun _ => Option.none)
      ⟨2024, 5, 1⟩ ⟨2024, 4, 30⟩ true = Except.ok [] :=
  ⟨(c9_reversed_range ⟨2024, 5, 1⟩ ⟨2024, 4, 30⟩ (by decide)).1,
   (c9_reversed_range ⟨2024, 5, 1⟩ ⟨2024, 4, 30⟩ (by decide)).2 _ _ _⟩

/-- C5: every transport failure is contained at the call site:
`get_event_by_id` returns an absent result on a transport exception and on
any non-200 status; `get_detailed_event_data` drops exactly the events whose
detail fetch returned absent; and a failed page fetch mid-pagination makes
`fetch_review_events` return only the events accumulated from the pages
before the failure, in all cases without raising. -/
theorem c5_error_containment :
    (∀ msg, get_event_by_id (Except.error msg) = Option.none) ∧
    (∀ st body, st ≠ 200 → get_event_by_id (Except.ok (st, body)) = Option.none) ∧
    (∀ (detail : PyVal → Option PyVal) (i : PyVal) (ids : List PyVal),
      detail i = Option.none →
      get_detailed_event_data detail (i :: ids) = get_detailed_event_data detail ids) ∧
    (∀ (good : List PageResult) (bad : PageResult) (rest : List PageResult),
      (∀ p ∈ good, pageOk p = true) → pageFail bad = true →
      fetch_review_events (good ++ bad :: rest) = (good.map pageEvents).flatten) := by
  refine ⟨fun msg => rfl, ?_, ?_, ?_⟩
  · intro st body h
    unfold get_event_by_id
    dsimp only
    rw [if_neg h]
  · intro detail i ids h
    unfold get_detailed_event_data
    rw [List.foldlM_cons, h]
    rfl
  · intro good bad rest hgood hbad
    induction good with
    | nil =>
      simp only [List.nil_append, List.map_nil, List.flatten_nil]
      cases bad with
      | netError m => rfl
      | response st evs nx =>
        unfold pageFail at hbad
        unfold fetch_review_events
        rw [if_pos (of_decide_eq_true hbad)]
    | cons p good ih =>
      have hp := hgood p (List.mem_cons_self p good)
      cases p with
      | netError m => simp [pageOk] at hp
      | response st evs nx =>
        unfold pageOk at hp
        simp only [Bool.and_eq_true, decide_eq_true_eq] at hp
        rw [List.cons_append]
        unfold fetch_review_events
        rw [if_neg (by omega), hp.2, if_pos rfl]
        rw [ih (fun q hq => hgood q (List.mem_cons_of_mem _ hq))]
        simp [pageEvents]

/-- Witness for C5: a transport error, a 404, a dropped detail fetch, and a
pagination chain cut by a network error after one good page. -/
theorem c5_error_containment_witness :
    get_event_by_id (Except.error "boom") = Option.none ∧
    get_event_by_id (Except.ok (404, PyVal.vdict [])) = Option.none ∧
    get_detailed_event_data (fun _ => Option.none) [PyVal.vstr "e1", PyVal.vstr "e2"] =
      get_detailed_event_data (fun _ => Option.none) [PyVal.vstr "e2"] ∧
    fetch_review_events
      [PageResult.response 200 [PyVal.vstr "a"] true, PageResult.netError "boom",
        PageResult.response 200 [PyVal.vstr "b"] true] =
      ([PageResult.response 200 [PyVal.vstr "a"] true].map pageEvents).flatten :=
  ⟨c5_error_containment.1 "boom",
   c5_error_containment.2.1 404 (PyVal.vdict []) (by decide),
   c5_error_containment.2.2.1 (fun _ => Option.none) (PyVal.vstr "e1") [PyVal.vstr "e2"] rfl,
   c5_error_containment.2.2.2 [PageResult.response 200 [PyVal.vstr "a"] true]
     (PageResult.netError "boom") [PageResult.response 200 [PyVal.vstr "b"] true]
     (by intro p hp; rw [List.mem_singleton] at hp; subst hp; rfl) rfl⟩

/-- C8: with an empty accumulated row list (zero events in every chunk),
`save_to_csv` performs no write, the processing loop returns an empty row
list as a normal (`Except.ok`) outcome, and the tail of `main` produces no
output file. -/
theorem c8_empty_no_write (fetch : Date → Date → List PyVal) (detail : PyVal → Option PyVal)
    (s e : Date) (detailed : Bool) (hf : ∀ a b, fetch a b = []) :
    save_to_csv [] = Option.none ∧
    process_date_range_in_chunks fetch detail s e detailed = Except.ok [] ∧
    main_output fetch detail s e detailed = Except.ok Option.none := by
  have key : ∀ (cs : List (Date × Date)) (acc : List Entries),
      List.foldlM (fun acc c =>
        if (fetch c.1 c.2).isEmpty then pure acc
        else do
          let evs ← if detailed then do
              let ids ← (fetch c.1 c.2).mapM (fun ev => pyGetD ev "id" PyVal.vnone)
              get_detailed_event_data detail ids
            else pure (fetch c.1 c.2)
          let rows ← extract_review_data evs
          pure (acc ++ rows)) acc cs = Except.ok acc := by
    intro cs
    induction cs with
    | nil => intro acc; rfl
    | cons c cs ih =>
      intro acc
      rw [List.foldlM_cons, hf c.1 c.2]
      rw [if_pos (show (List.isEmpty ([] : List PyVal)) = true from rfl), epure, ebind_ok]
      exact ih acc
  have hproc : process_date_range_in_chunks fetch detail s e detailed = Except.ok [] := by
    unfold process_date_range_in_chunks
    exact key _ []
  refine ⟨rfl, hproc, ?_⟩
  unfold main_output
  rw [hproc, ebind_ok]
  rfl

/-- Witness for C8 with an always-empty fetch over 2024-01-01 .. 2024-03-10. -/
theorem c8_empty_no_write_witness :
    save_to_csv [] = Option.none ∧
    process_date_range_in_chunks (fun _ _ => []) (fun _ => Option.none)
      ⟨2024, 1, 1⟩ ⟨2024, 3, 10⟩ false = Except.ok [] ∧
    main_output (fun _ _ => []) (fun _ => Option.none) ⟨2024, 1, 1⟩ ⟨2024, 3, 10⟩ false =
      Except.ok Option.none :=
  c8_empty_no_write (fun _ _ => []) (fun _ => Option.none) ⟨2024, 1, 1⟩ ⟨2024, 3, 10⟩ false
    (fun _ _ => rfl)

/-- C3 counterexample: a property bag that CONTAINS the key "product" with a
fully empty product object. The extracted row omits all nine product/variant
columns (shown for "product_id"), because the code tests `if product_data:`
(truthiness), not key presence. -/
theorem c3_counterexample :
    hasKeyL [("product", PyVal.vdict [])] "product" = true ∧
    extract_review_data
      [PyVal.vdict [("attributes", PyVal.vdict [("properties",
        PyVal.vdict [("product", PyVal.vdict [])])])]] =
      Except.ok [[("event_id", PyVal.vnone), ("event_datetime", PyVal.vnone),
        ("profile_email", PyVal.vnone), ("review_verified", PyVal.vnone),
        ("review_email", PyVal.vnone), ("review_id", PyVal.vnone),
        ("review_rating", PyVal.vnone), ("review_author", PyVal.vnone),
        ("review_status", PyVal.vnone), ("review_has_media", PyVal.vnone),
        ("review_content", PyVal.vnone), ("review_title", PyVal.vnone),
        ("review_link", PyVal.vnone), ("is_store_review", PyVal.vnone)]] ∧
    hasKeyL [("event_id", PyVal.vnone), ("event_datetime", PyVal.vnone),
        ("profile_email", PyVal.vnone), ("review_verified", PyVal.vnone),
        ("review_email", PyVal.vnone), ("review_id", PyVal.vnone),
        ("review_rating", PyVal.vnone), ("review_author", PyVal.vnone),
        ("review_status", PyVal.vnone), ("review_has_media", PyVal.vnone),
        ("review_content", PyVal.vnone), ("review_title", PyVal.vnone),
        ("review_link", PyVal.vnone), ("is_store_review", PyVal.vnone)] "product_id" =
      false :=
  ⟨rfl, rfl, rfl⟩

set_option maxHeartbeats 1600000 in
/-- C3 amended: for every successfully extracted event, the nine
product/variant columns appear on the row exactly when the property bag maps
"product" to a TRUTHY value (all nine together); when "product" is absent or
falsy (null, empty object, ...), none of the nine columns appear; and when
the product value is a (truthy) object, each column carries the
corresponding sub-field, with missing sub-fields rendered as null (and the
variant columns read from the "variant" sub-object, treated as empty when
absent or falsy). -/
theorem c3_product_columns_amended (ev : PyVal) (row : Entries) (attrs bag : PyVal)
    (props : Entries)
    (hrow : extractRow ev = Except.ok row)
    (hattrs : pyGetD ev "attributes" (PyVal.vdict []) = Except.ok attrs)
    (hbag : locateBag attrs = Except.ok bag)
    (hprops : pyItems bag = Except.ok props) :
    (truthy (lookupD props "product" (PyVal.vdict [])) = true →
      ∀ k ∈ nineProductKeys, hasKeyL row k = true) ∧
    (truthy (lookupD props "product" (PyVal.vdict [])) = false →
      ∀ k ∈ nineProductKeys, hasKeyL row k = false) ∧
    (∀ pd vd : Entries, lookupD props "product" (PyVal.vdict []) = PyVal.vdict pd →
      truthy (PyVal.vdict pd) = true →
      (if truthy (lookupD pd "variant" PyVal.vnone) then lookupD pd "variant" PyVal.vnone
        else PyVal.vdict []) = PyVal.vdict vd →
      lookupRow row "product_id" = Option.some (lookupD pd "id" PyVal.vnone) ∧
      lookupRow row "product_title" = Option.some (lookupD pd "title" PyVal.vnone) ∧
      lookupRow row "product_handle" = Option.some (lookupD pd "handle" PyVal.vnone) ∧
      lookupRow row "product_type" = Option.some (lookupD pd "product_type" PyVal.vnone) ∧
      lookupRow row "product_vendor" = Option.some (lookupD pd "vendor" PyVal.vnone) ∧
      lookupRow row "product_tags" = Option.some (lookupD pd "tags" PyVal.vnone) ∧
      lookupRow row "variant_id" = Option.some (lookupD vd "id" PyVal.vnone) ∧
      lookupRow row "variant_title" = Option.some (lookupD vd "title" PyVal.vnone) ∧
      lookupRow row "variant_sku" = Option.some (lookupD vd "sku" PyVal.vnone)) := by
  obtain ⟨attrs2, bag2, row0, props2, row3, h1, h2, h3, h4, h5, h6⟩ :=
    extractRow_ok_shape ev row hrow
  rw [hattrs] at h1
  injection h1 with h1
  subst h1
  rw [hbag] at h2
  injection h2 with h2
  subst h2
  rw [hprops] at h4
  injection h4 with h4
  subst h4
  obtain ⟨eid, edt, em, g1, g2, g3, g4⟩ := seedRow_ok_shape ev attrs row0 h3
  subst g4
  refine ⟨?_, ?_, ?_⟩
  · intro ht k hk
    simp only [nineProductKeys, List.mem_cons, List.not_mem_nil, or_false] at hk
    rw [productSection_truthy props _ ht] at h5
    obtain ⟨pd, vd, hpd, hvd, hout⟩ := productRow_ok_shape _ _ row3 h5
    rcases hk with rfl | rfl | rfl | rfl | rfl | rfl | rfl | rfl | rfl <;>
      rw [structuredSection_hasKey_ne props _ row _ h6 (by decide) (by decide) (by decide),
        hout, hasKeyL_updates] <;> simp
  · intro ht k hk
    simp only [nineProductKeys, List.mem_cons, List.not_mem_nil, or_false] at hk
    rw [productSection_falsy props _ ht] at h5
    injection h5 with h5
    rw [← h5] at h6
    rcases hk with rfl | rfl | rfl | rfl | rfl | rfl | rfl | rfl | rfl <;>
      rw [structuredSection_hasKey_ne props _ row _ h6 (by decide) (by decide) (by decide),
        reviewFold_hasKey, cqFold_hasKey_not_cq _ _ _ (by decide)] <;> rfl
  · intro pd vd hpd htr hvd
    rw [productSection_truthy props _ (by rw [hpd]; exact htr)] at h5
    rw [hpd, productRow_dict pd vd _ hvd] at h5
    injection h5 with h5
    rw [← h5] at h6
    refine ⟨?_, ?_, ?_, ?_, ?_, ?_, ?_, ?_, ?_⟩ <;>
      rw [structuredSection_lookup_ne props _ row _ h6 (by decide) (by decide) (by decide)] <;>
      exact lookupRow_updates_mem _ _ _ _ (by simp)
        (by simp only [List.map_cons, List.map_nil]; decide)

/-- Witness for the amended C3 at a concrete event whose product object has
only an "id" sub-field: all nine columns appear, the missing ones as null. -/
theorem c3_product_columns_amended_witness :
    (truthy (lookupD [("product", PyVal.vdict [("id", PyVal.vstr "p1")])] "product"
        (PyVal.vdict [])) = true →
      ∀ k ∈ nineProductKeys, hasKeyL [("event_id", PyVal.vnone),
        ("event_datetime", PyVal.vnone), ("profile_email", PyVal.vnone),
        ("review_verified", PyVal.vnone), ("review_email", PyVal.vnone),
        ("review_id", PyVal.vnone), ("review_rating", PyVal.vnone),
        ("review_author", PyVal.vnone), ("review_status", PyVal.vnone),
        ("review_has_media", PyVal.vnone), ("review_content", PyVal.vnone),
        ("review_title", PyVal.vnone), ("review_link", PyVal.vnone),
        ("is_store_review", PyVal.vnone), ("product_id", PyVal.vstr "p1"),
        ("product_title", PyVal.vnone), ("product_handle", PyVal.vnone),
        ("product_type", PyVal.vnone), ("product_vendor", PyVal.vnone),
        ("product_tags", PyVal.vnone), ("variant_id", PyVal.vnone),
        ("variant_title", PyVal.vnone), ("variant_sku", PyVal.vnone)] k = true) ∧
    (truthy (lookupD [("product", PyVal.vdict [("id", PyVal.vstr "p1")])] "product"
        (PyVal.vdict [])) = false →
      ∀ k ∈ nineProductKeys, hasKeyL [("event_id", PyVal.vnone),
        ("event_datetime", PyVal.vnone), ("profile_email", PyVal.vnone),
        ("review_verified", PyVal.vnone), ("review_email", PyVal.vnone),
        ("review_id", PyVal.vnone), ("review_rating", PyVal.vnone),
        ("review_author", PyVal.vnone), ("review_status", PyVal.vnone),
        ("review_has_media", PyVal.vnone), ("review_content", PyVal.vnone),
        ("review_title", PyVal.vnone), ("review_link", PyVal.vnone),
        ("is_store_review", PyVal.vnone), ("product_id", PyVal.vstr "p1"),
        ("product_title", PyVal.vnone), ("product_handle", PyVal.vnone),
        ("product_type", PyVal.vnone), ("product_vendor", PyVal.vnone),
        ("product_tags", PyVal.vnone), ("variant_id", PyVal.vnone),
        ("variant_title", PyVal.vnone), ("variant_sku", PyVal.vnone)] k = false) ∧
    (∀ pd vd : Entries,
      lookupD [("product", PyVal.vdict [("id", PyVal.vstr "p1")])] "product"
        (PyVal.vdict []) = PyVal.vdict pd →
      truthy (PyVal.vdict pd) = true →
      (if truthy (lookupD pd "variant" PyVal.vnone) then lookupD pd "variant" PyVal.vnone
        else PyVal.vdict []) = PyVal.vdict vd →
      lookupRow [("event_id", PyVal.vnone),
        ("event_datetime", PyVal.vnone), ("profile_email", PyVal.vnone),
        ("review_verified", PyVal.vnone), ("review_email", PyVal.vnone),
        ("review_id", PyVal.vnone), ("review_rating", PyVal.vnone),
        ("review_author", PyVal.vnone), ("review_status", PyVal.vnone),
        ("review_has_media", PyVal.vnone), ("review_content", PyVal.vnone),
        ("review_title", PyVal.vnone), ("review_link", PyVal.vnone),
        ("is_store_review", PyVal.vnone), ("product_id", PyVal.vstr "p1"),
        ("product_title", PyVal.vnone), ("product_handle", PyVal.vnone),
        ("product_type", PyVal.vnone), ("product_vendor", PyVal.vnone),
        ("product_tags", PyVal.vnone), ("variant_id", PyVal.vnone),
        ("variant_title", PyVal.vnone), ("variant_sku", PyVal.vnone)] "product_id" =
        Option.some (lookupD pd "id" PyVal.vnone) ∧
      lookupRow [("event_id", PyVal.vnone),
        ("event_datetime", PyVal.vnone), ("profile_email", PyVal.vnone),
        ("review_verified", PyVal.vnone), ("review_email", PyVal.vnone),
        ("review_id", PyVal.vnone), ("review_rating", PyVal.vnone),
        ("review_author", PyVal.vnone), ("review_status", PyVal.vnone),
        ("review_has_media", PyVal.vnone), ("review_content", PyVal.vnone),
        ("review_title", PyVal.vnone), ("review_link", PyVal.vnone),
        ("is_store_review", PyVal.vnone), ("product_id", PyVal.vstr "p1"),
        ("product_title", PyVal.vnone), ("product_handle", PyVal.vnone),
        ("product_type", PyVal.vnone), ("product_vendor", PyVal.vnone),
        ("product_tags", PyVal.vnone), ("variant_id", PyVal.vnone),
        ("variant_title", PyVal.vnone), ("variant_sku", PyVal.vnone)] "product_title" =
        Option.some (lookupD pd "title" PyVal.vnone) ∧
      lookupRow [("event_id", PyVal.vnone),
        ("event_datetime", PyVal.vnone), ("profile_email", PyVal.vnone),
        ("review_verified", PyVal.vnone), ("review_email", PyVal.vnone),
        ("review_id", PyVal.vnone), ("review_rating", PyVal.vnone),
        ("review_author", PyVal.vnone), ("review_status", PyVal.vnone),
        ("review_has_media", PyVal.vnone), ("review_content", PyVal.vnone),
        ("review_title", PyVal.vnone), ("review_link", PyVal.vnone),
        ("is_store_review", PyVal.vnone), ("product_id", PyVal.vstr "p1"),
        ("product_title", PyVal.vnone), ("product_handle", PyVal.vnone),
        ("product_type", PyVal.vnone), ("product_vendor", PyVal.vnone),
        ("product_tags", PyVal.vnone), ("variant_id", PyVal.vnone),
        ("variant_title", PyVal.vnone), ("variant_sku", PyVal.vnone)] "product_handle" =
        Option.some (lookupD pd "handle" PyVal.vnone) ∧
      lookupRow [("event_id", PyVal.vnone),
        ("event_datetime", PyVal.vnone), ("profile_email", PyVal.vnone),
        ("review_verified", PyVal.vnone), ("review_email", PyVal.vnone),
        ("review_id", PyVal.vnone), ("review_rating", PyVal.vnone),
        ("review_author", PyVal.vnone), ("review_status", PyVal.vnone),
        ("review_has_media", PyVal.vnone), ("review_content", PyVal.vnone),
        ("review_title", PyVal.vnone), ("review_link", PyVal.vnone),
        ("is_store_review", PyVal.vnone), ("product_id", PyVal.vstr "p1"),
        ("product_title", PyVal.vnone), ("product_handle", PyVal.vnone),
        ("product_type", PyVal.vnone), ("product_vendor", PyVal.vnone),
        ("product_tags", PyVal.vnone), ("variant_id", PyVal.vnone),
        ("variant_title", PyVal.vnone), ("variant_sku", PyVal.vnone)] "product_type" =
        Option.some (lookupD pd "product_type" PyVal.vnone) ∧
      lookupRow [("event_id", PyVal.vnone),
        ("event_datetime", PyVal.vnone), ("profile_email", PyVal.vnone),
        ("review_verified", PyVal.vnone), ("review_email", PyVal.vnone),
        ("review_id", PyVal.vnone), ("review_rating", PyVal.vnone),
        ("review_author", PyVal.vnone), ("review_status", PyVal.vnone),
        ("review_has_media", PyVal.vnone), ("review_content", PyVal.vnone),
        ("review_title", PyVal.vnone), ("review_link", PyVal.vnone),
        ("is_store_review", PyVal.vnone), ("product_id", PyVal.vstr "p1"),
        ("product_title", PyVal.vnone), ("product_handle", PyVal.vnone),
        ("product_type", PyVal.vnone), ("product_vendor", PyVal.vnone),
        ("product_tags", PyVal.vnone), ("variant_id", PyVal.vnone),
        ("variant_title", PyVal.vnone), ("variant_sku", PyVal.vnone)] "product_vendor" =
        Option.some (lookupD pd "vendor" PyVal.vnone) ∧
      lookupRow [("event_id", PyVal.vnone),
        ("event_datetime", PyVal.vnone), ("profile_email", PyVal.vnone),
        ("review_verified", PyVal.vnone), ("review_email", PyVal.vnone),
        ("review_id", PyVal.vnone), ("review_rating", PyVal.vnone),
        ("review_author", PyVal.vnone), ("review_status", PyVal.vnone),
        ("review_has_media", PyVal.vnone), ("review_content", PyVal.vnone),
        ("review_title", PyVal.vnone), ("review_link", PyVal.vnone),
        ("is_store_review", PyVal.vnone), ("product_id", PyVal.vstr "p1"),
        ("product_title", PyVal.vnone), ("product_handle", PyVal.vnone),
        ("product_type", PyVal.vnone), ("product_vendor", PyVal.vnone),
        ("product_tags", PyVal.vnone), ("variant_id", PyVal.vnone),
        ("variant_title", PyVal.vnone), ("variant_sku", PyVal.vnone)] "product_tags" =
        Option.some (lookupD pd "tags" PyVal.vnone) ∧
      lookupRow [("event_id", PyVal.vnone),
        ("event_datetime", PyVal.vnone), ("profile_email", PyVal.vnone),
        ("review_verified", PyVal.vnone), ("review_email", PyVal.vnone),
        ("review_id", PyVal.vnone), ("review_rating", PyVal.vnone),
        ("review_author", PyVal.vnone), ("review_status", PyVal.vnone),
        ("review_has_media", PyVal.vnone), ("review_content", PyVal.vnone),
        ("review_title", PyVal.vnone), ("review_link", PyVal.vnone),
        ("is_store_review", PyVal.vnone), ("product_id", PyVal.vstr "p1"),
        ("product_title", PyVal.vnone), ("product_handle", PyVal.vnone),
        ("product_type", PyVal.vnone), ("product_vendor", PyVal.vnone),
        ("product_tags", PyVal.vnone), ("variant_id", PyVal.vnone),
        ("variant_title", PyVal.vnone), ("variant_sku", PyVal.vnone)] "variant_id" =
        Option.some (lookupD vd "id" PyVal.vnone) ∧
      lookupRow [("event_id", PyVal.vnone),
        ("event_datetime", PyVal.vnone), ("profile_email", PyVal.vnone),
        ("review_verified", PyVal.vnone), ("review_email", PyVal.vnone),
        ("review_id", PyVal.vnone), ("review_rating", PyVal.vnone),
        ("review_author", PyVal.vnone), ("review_status", PyVal.vnone),
        ("review_has_media", PyVal.vnone), ("review_content", PyVal.vnone),
        ("review_title", PyVal.vnone), ("review_link", PyVal.vnone),
        ("is_store_review", PyVal.vnone), ("product_id", PyVal.vstr "p1"),
        ("product_title", PyVal.vnone), ("product_handle", PyVal.vnone),
        ("product_type", PyVal.vnone), ("product_vendor", PyVal.vnone),
        ("product_tags", PyVal.vnone), ("variant_id", PyVal.vnone),
        ("variant_title", PyVal.vnone), ("variant_sku", PyVal.vnone)] "variant_title" =
        Option.some (lookupD vd "title" PyVal.vnone) ∧
      lookupRow [("event_id", PyVal.vnone),
        ("event_datetime", PyVal.vnone), ("profile_email", PyVal.vnone),
        ("review_verified", PyVal.vnone), ("review_email", PyVal.vnone),
        ("review_id", PyVal.vnone), ("review_rating", PyVal.vnone),
        ("review_author", PyVal.vnone), ("review_status", PyVal.vnone),
        ("review_has_media", PyVal.vnone), ("review_content", PyVal.vnone),
        ("review_title", PyVal.vnone), ("review_link", PyVal.vnone),
        ("is_store_review", PyVal.vnone), ("product_id", PyVal.vstr "p1"),
        ("product_title", PyVal.vnone), ("product_handle", PyVal.vnone),
        ("product_type", PyVal.vnone), ("product_vendor", PyVal.vnone),
        ("product_tags", PyVal.vnone), ("variant_id", PyVal.vnone),
        ("variant_title", PyVal.vnone), ("variant_sku", PyVal.vnone)] "variant_sku" =
        Option.some (lookupD vd "sku" PyVal.vnone)) :=
  c3_product_columns_amended
    (PyVal.vdict [("attributes", PyVal.vdict [("properties",
      PyVal.vdict [("product", PyVal.vdict [("id", PyVal.vstr "p1")])])])])
    [("event_id", PyVal.vnone), ("event_datetime", PyVal.vnone),
      ("profile_email", PyVal.vnone), ("review_verified", PyVal.vnone),
      ("review_email", PyVal.vnone), ("review_id", PyVal.vnone),
      ("review_rating", PyVal.vnone), ("review_author", PyVal.vnone),
      ("review_status", PyVal.vnone), ("review_has_media", PyVal.vnone),
      ("review_content", PyVal.vnone), ("review_title", PyVal.vnone),
      ("review_link", PyVal.vnone), ("is_store_review", PyVal.vnone),
      ("product_id", PyVal.vstr "p1"), ("product_title", PyVal.vnone),
      ("product_handle", PyVal.vnone), ("product_type", PyVal.vnone),
      ("product_vendor", PyVal.vnone), ("product_tags", PyVal.vnone),
      ("variant_id", PyVal.vnone), ("variant_title", PyVal.vnone),
      ("variant_sku", PyVal.vnone)]
    (PyVal.vdict [("properties", PyVal.vdict [("product",
      PyVal.vdict [("id", PyVal.vstr "p1")])])])
    (PyVal.vdict [("product", PyVal.vdict [("id", PyVal.vstr "p1")])])
    [("product", PyVal.vdict [("id", PyVal.vstr "p1")])]
    rfl rfl rfl rfl

/-- C4 counterexample: an event whose attributes contain a "profile" key
whose value is null. The chain `profile -> data -> attributes -> email` is
broken by a PRESENT null link, and `extract_review_data` raises
(AttributeError from `None.get`) instead of yielding a null email. -/
theorem c4_counterexample :
    hasKeyL [("profile", PyVal.vnone)] "profile" = true ∧
    extract_review_data
      [PyVal.vdict [("attributes", PyVal.vdict [("profile", PyVal.vnone)])]] =
      Except.error "AttributeError" :=
  ⟨rfl, rfl⟩

/-- C4 amended: when the profile chain is broken by an ABSENT key at any
nesting level (each present link being an object), the chain lookup yields
null without raising, and the extracted row's profile_email carries exactly
the chain's value; a present-but-null link, by contrast, raises (see the
counterexample). -/
theorem c4_profile_email_amended (a1 a2 a3 a4 : Entries) :
    (hasKeyL a1 "profile" = false →
      profileEmail (PyVal.vdict a1) = Except.ok PyVal.vnone) ∧
    (lookupRow a1 "profile" = Option.some (PyVal.vdict a2) → hasKeyL a2 "data" = false →
      profileEmail (PyVal.vdict a1) = Except.ok PyVal.vnone) ∧
    (lookupRow a1 "profile" = Option.some (PyVal.vdict a2) →
      lookupRow a2 "data" = Option.some (PyVal.vdict a3) →
      hasKeyL a3 "attributes" = false →
      profileEmail (PyVal.vdict a1) = Except.ok PyVal.vnone) ∧
    (lookupRow a1 "profile" = Option.some (PyVal.vdict a2) →
      lookupRow a2 "data" = Option.some (PyVal.vdict a3) →
      lookupRow a3 "attributes" = Option.some (PyVal.vdict a4) →
      hasKeyL a4 "email" = false →
      profileEmail (PyVal.vdict a1) = Except.ok PyVal.vnone) ∧
    (∀ (ev : PyVal) (row : Entries) (p : PyVal), extractRow ev = Except.ok row →
      pyGetD ev "attributes" (PyVal.vdict []) = Except.ok (PyVal.vdict a1) →
      profileEmail (PyVal.vdict a1) = Except.ok p →
      lookupRow row "profile_email" = Option.some p) :=
  ⟨profileEmail_no_profile a1,
   profileEmail_no_data a1 a2,
   profileEmail_no_attributes a1 a2 a3,
   profileEmail_no_email a1 a2 a3 a4,
   fun ev row p hrow ha hp => extractRow_profile_email ev row (PyVal.vdict a1) p hrow ha hp⟩

/-- Witness for the amended C4: a chain that is all objects down to
"attributes" but has no "email" key resolves to null, and the extracted row
of the corresponding event carries that null. -/
theorem c4_profile_email_amended_witness :
    profileEmail (PyVal.vdict [("profile", PyVal.vdict [("data",
      PyVal.vdict [("attributes", PyVal.vdict [])])])]) = Except.ok PyVal.vnone ∧
    lookupRow [("event_id", PyVal.vnone), ("event_datetime", PyVal.vnone),
      ("profile_email", PyVal.vnone), ("review_verified", PyVal.vnone),
      ("review_email", PyVal.vnone), ("review_id", PyVal.vnone),
      ("review_rating", PyVal.vnone), ("review_author", PyVal.vnone),
      ("review_status", PyVal.vnone), ("review_has_media", PyVal.vnone),
      ("review_content", PyVal.vnone), ("review_title", PyVal.vnone),
      ("review_link", PyVal.vnone), ("is_store_review", PyVal.vnone)]
      "profile_email" = Option.some PyVal.vnone :=
  ⟨(c4_profile_email_amended [("profile", PyVal.vdict [("data",
      PyVal.vdict [("attributes", PyVal.vdict [])])])]
      [("data", PyVal.vdict [("attributes", PyVal.vdict [])])]
      [("attributes", PyVal.vdict [])] []).2.2.2.1 rfl rfl rfl rfl,
   (c4_profile_email_amended [("profile", PyVal.vdict [("data",
      PyVal.vdict [("attributes", PyVal.vdict [])])])]
      [("data", PyVal.vdict [("attributes", PyVal.vdict [])])]
      [("attributes", PyVal.vdict [])] []).2.2.2.2
     (PyVal.vdict [("attributes", PyVal.vdict [("profile", PyVal.vdict [("data",
       PyVal.vdict [("attributes", PyVal.vdict [])])])])])
     [("event_id", PyVal.vnone), ("event_datetime", PyVal.vnone),
      ("profile_email", PyVal.vnone), ("review_verified", PyVal.vnone),
      ("review_email", PyVal.vnone), ("review_id", PyVal.vnone),
      ("review_rating", PyVal.vnone), ("review_author", PyVal.vnone),
      ("review_status", PyVal.vnone), ("review_has_media", PyVal.vnone),
      ("review_content", PyVal.vnone), ("review_title", PyVal.vnone),
      ("review_link", PyVal.vnone), ("is_store_review", PyVal.vnone)]
     PyVal.vnone rfl rfl rfl⟩

/-- C6: for every successfully extracted event and every property-bag entry
whose key starts with "CQ:", the row carries that key with the entry's value
unchanged, except that a list value is replaced by the ", "-join of its
elements' string forms (the JSON sequence type; key uniqueness is the Python
dict invariant). -/
theorem c6_cq_fields (ev : PyVal) (row : Entries) (attrs bag : PyVal) (props : Entries)
    (k : String) (v : PyVal)
    (hrow : extractRow ev = Except.ok row)
    (hattrs : pyGetD ev "attributes" (PyVal.vdict []) = Except.ok attrs)
    (hbag : locateBag attrs = Except.ok bag)
    (hprops : pyItems bag = Except.ok props)
    (hnd : (props.map Prod.fst).Nodup)
    (hmem : (k, v) ∈ props)
    (hcq : startsWithCQ k = true) :
    lookupRow row k = Option.some (cqValue v) ∧
    (∀ xs, v = PyVal.vlist xs →
      cqValue v = PyVal.vstr (String.intercalate ", " (xs.map pyStr))) ∧
    ((∀ xs, v ≠ PyVal.vlist xs) → cqValue v = v) := by
  obtain ⟨attrs2, bag2, row0, props2, row3, h1, h2, h3, h4, h5, h6⟩ :=
    extractRow_ok_shape ev row hrow
  rw [hattrs] at h1
  injection h1 with h1
  subst h1
  rw [hbag] at h2
  injection h2 with h2
  subst h2
  rw [hprops] at h4
  injection h4 with h4
  subst h4
  refine ⟨?_, ?_, ?_⟩
  · rw [structuredSection_lookup_ne props row3 row k h6
      (beq_false_of_cq_mismatch k _ hcq (by decide))
      (beq_false_of_cq_mismatch k _ hcq (by decide))
      (beq_false_of_cq_mismatch k _ hcq (by decide))]
    rw [productSection_lookup_ne props _ row3 k h5 ?hnine]
    case hnine =>
      intro f hf
      simp only [nineProductKeys, List.mem_cons, List.not_mem_nil, or_false] at hf
      rcases hf with rfl | rfl | rfl | rfl | rfl | rfl | rfl | rfl | rfl <;>
        exact beq_false_of_cq_mismatch k _ hcq (by decide)
    rw [reviewFold_lookup_ne props _ k ?hrev]
    case hrev =>
      intro f hf
      simp only [review_fields, List.mem_cons, List.not_mem_nil, or_false] at hf
      rcases hf with rfl | rfl | rfl | rfl | rfl | rfl | rfl | rfl | rfl | rfl | rfl <;>
        exact beq_false_of_cq_mismatch k _ hcq (by decide)
    exact cqFold_lookup_mem props _ k v hnd hmem hcq
  · intro xs hx
    subst hx
    rfl
  · intro hnl
    cases v with
    | vlist xs => exact absurd rfl (hnl xs)
    | vnone => rfl
    | vbool b => rfl
    | vint n => rfl
    | vstr s => rfl
    | vtuple xs => rfl
    | vdict es => rfl

/-- Witness for C6: a "CQ:interests" entry holding the list
["a", "b", "c"] lands in the row as the string "a, b, c". -/
theorem c6_cq_fields_witness :
    lookupRow [("event_id", PyVal.vnone), ("event_datetime", PyVal.vnone),
      ("profile_email", PyVal.vnone),
      ("CQ:interests", PyVal.vstr "a, b, c"), ("review_verified", PyVal.vnone),
      ("review_email", PyVal.vnone), ("review_id", PyVal.vnone),
      ("review_rating", PyVal.vnone), ("review_author", PyVal.vnone),
      ("review_status", PyVal.vnone), ("review_has_media", PyVal.vnone),
      ("review_content", PyVal.vnone), ("review_title", PyVal.vnone),
      ("review_link", PyVal.vnone), ("is_store_review", PyVal.vnone)] "CQ:interests" =
      Option.some (cqValue (PyVal.vlist [PyVal.vstr "a", PyVal.vstr "b", PyVal.vstr "c"])) ∧
    (∀ xs, PyVal.vlist [PyVal.vstr "a", PyVal.vstr "b", PyVal.vstr "c"] = PyVal.vlist xs →
      cqValue (PyVal.vlist [PyVal.vstr "a", PyVal.vstr "b", PyVal.vstr "c"]) =
        PyVal.vstr (String.intercalate ", " (xs.map pyStr))) ∧
    ((∀ xs, PyVal.vlist [PyVal.vstr "a", PyVal.vstr "b", PyVal.vstr "c"] ≠ PyVal.vlist xs) →
      cqValue (PyVal.vlist [PyVal.vstr "a", PyVal.vstr "b", PyVal.vstr "c"]) =
        PyVal.vlist [PyVal.vstr "a", PyVal.vstr "b", PyVal.vstr "c"]) :=
  c6_cq_fields
    (PyVal.vdict [("attributes", PyVal.vdict [("properties", PyVal.vdict
      [("CQ:interests", PyVal.vlist [PyVal.vstr "a", PyVal.vstr "b", PyVal.vstr "c"])])])])
    [("event_id", PyVal.vnone), ("event_datetime", PyVal.vnone),
      ("profile_email", PyVal.vnone),
      ("CQ:interests", PyVal.vstr "a, b, c"), ("review_verified", PyVal.vnone),
      ("review_email", PyVal.vnone), ("review_id", PyVal.vnone),
      ("review_rating", PyVal.vnone), ("review_author", PyVal.vnone),
      ("review_status", PyVal.vnone), ("review_has_media", PyVal.vnone),
      ("review_content", PyVal.vnone), ("review_title", PyVal.vnone),
      ("review_link", PyVal.vnone), ("is_store_review", PyVal.vnone)]
    (PyVal.vdict [("properties", PyVal.vdict
      [("CQ:interests", PyVal.vlist [PyVal.vstr "a", PyVal.vstr "b", PyVal.vstr "c"])])])
    (PyVal.vdict
      [("CQ:interests", PyVal.vlist [PyVal.vstr "a", PyVal.vstr "b", PyVal.vstr "c"])])
    [("CQ:interests", PyVal.vlist [PyVal.vstr "a", PyVal.vstr "b", PyVal.vstr "c"])]
    "CQ:interests" (PyVal.vlist [PyVal.vstr "a", PyVal.vstr "b", PyVal.vstr "c"])
    rfl rfl rfl rfl (by decide) (List.mem_cons_self _ _) rfl

/-- C10: in the CQ copying step only list values are joined; a value of any
other type — including strings and tuples, which are also Python
sequences — is copied into the row unchanged. -/
theorem c10_only_lists_joined (ev : PyVal) (row : Entries) (attrs bag : PyVal)
    (props : Entries) (k : String) (v : PyVal)
    (hrow : extractRow ev = Except.ok row)
    (hattrs : pyGetD ev "attributes" (PyVal.vdict []) = Except.ok attrs)
    (hbag : locateBag attrs = Except.ok bag)
    (hprops : pyItems bag = Except.ok props)
    (hnd : (props.map Prod.fst).Nodup)
    (hmem : (k, v) ∈ props)
    (hcq : startsWithCQ k = true)
    (hnl : ∀ xs, v ≠ PyVal.vlist xs) :
    lookupRow row k = Option.some v ∧
    (∀ s, cqValue (PyVal.vstr s) = PyVal.vstr s) ∧
    (∀ xs, cqValue (PyVal.vtuple xs) = PyVal.vtuple xs) ∧
    (∀ xs, cqValue (PyVal.vlist xs) =
      PyVal.vstr (String.intercalate ", " (xs.map pyStr))) := by
  obtain ⟨attrs2, bag2, row0, props2, row3, h1, h2, h3, h4, h5, h6⟩ :=
    extractRow_ok_shape ev row hrow
  rw [hattrs] at h1
  injection h1 with h1
  subst h1
  rw [hbag] at h2
  injection h2 with h2
  subst h2
  rw [hprops] at h4
  injection h4 with h4
  subst h4
  have hcqv : cqValue v = v := by
    cases v with
    | vlist xs => exact absurd rfl (hnl xs)
    | vnone => rfl
    | vbool b => rfl
    | vint n => rfl
    | vstr s => rfl
    | vtuple xs => rfl
    | vdict es => rfl
  refine ⟨?_, fun s => rfl, fun xs => rfl, fun xs => rfl⟩
  rw [structuredSection_lookup_ne props row3 row k h6
    (beq_false_of_cq_mismatch k _ hcq (by decide))
    (beq_false_of_cq_mismatch k _ hcq (by decide))
    (beq_false_of_cq_mismatch k _ hcq (by decide))]
  rw [productSection_lookup_ne props _ row3 k h5 ?hnine]
  case hnine =>
    intro f hf
    simp only [nineProductKeys, List.mem_cons, List.not_mem_nil, or_false] at hf
    rcases hf with rfl | rfl | rfl | rfl | rfl | rfl | rfl | rfl | rfl <;>
      exact beq_false_of_cq_mismatch k _ hcq (by decide)
  rw [reviewFold_lookup_ne props _ k ?hrev]
  case hrev =>
    intro f hf
    simp only [review_fields, List.mem_cons, List.not_mem_nil, or_false] at hf
    rcases hf with rfl | rfl | rfl | rfl | rfl | rfl | rfl | rfl | rfl | rfl | rfl <;>
      exact beq_false_of_cq_mismatch k _ hcq (by decide)
  rw [cqFold_lookup_mem props _ k v hnd hmem hcq, hcqv]

/-- Witness for C10: a "CQ:size" entry holding a tuple is copied into the row
unchanged. -/
theorem c10_only_lists_joined_witness :
    lookupRow [("event_id", PyVal.vnone), ("event_datetime", PyVal.vnone),
      ("profile_email", PyVal.vnone),
      ("CQ:size", PyVal.vtuple [PyVal.vstr "a", PyVal.vstr "b"]),
      ("review_verified", PyVal.vnone),
      ("review_email", PyVal.vnone), ("review_id", PyVal.vnone),
      ("review_rating", PyVal.vnone), ("review_author", PyVal.vnone),
      ("review_status", PyVal.vnone), ("review_has_media", PyVal.vnone),
      ("review_content", PyVal.vnone), ("review_title", PyVal.vnone),
      ("review_link", PyVal.vnone), ("is_store_review", PyVal.vnone)] "CQ:size" =
      Option.some (PyVal.vtuple [PyVal.vstr "a", PyVal.vstr "b"]) ∧
    (∀ s, cqValue (PyVal.vstr s) = PyVal.vstr s) ∧
    (∀ xs, cqValue (PyVal.vtuple xs) = PyVal.vtuple xs) ∧
    (∀ xs, cqValue (PyVal.vlist xs) =
      PyVal.vstr (String.intercalate ", " (xs.map pyStr))) :=
  c10_only_lists_joined
    (PyVal.vdict [("attributes", PyVal.vdict [("properties", PyVal.vdict
      [("CQ:size", PyVal.vtuple [PyVal.vstr "a", PyVal.vstr "b"])])])])
    [("event_id", PyVal.vnone), ("event_datetime", PyVal.vnone),
      ("profile_email", PyVal.vnone),
      ("CQ:size", PyVal.vtuple [PyVal.vstr "a", PyVal.vstr "b"]),
      ("review_verified", PyVal.vnone),
      ("review_email", PyVal.vnone), ("review_id", PyVal.vnone),
      ("review_rating", PyVal.vnone), ("review_author", PyVal.vnone),
      ("review_status", PyVal.vnone), ("review_has_media", PyVal.vnone),
      ("review_content", PyVal.vnone), ("review_title", PyVal.vnone),
      ("review_link", PyVal.vnone), ("is_store_review", PyVal.vnone)]
    (PyVal.vdict [("properties", PyVal.vdict
      [("CQ:size", PyVal.vtuple [PyVal.vstr "a", PyVal.vstr "b"])])])
    (PyVal.vdict [("CQ:size", PyVal.vtuple [PyVal.vstr "a", PyVal.vstr "b"])])
    [("CQ:size", PyVal.vtuple [PyVal.vstr "a", PyVal.vstr "b"])]
    "CQ:size" (PyVal.vtuple [PyVal.vstr "a", PyVal.vstr "b"])
    rfl rfl rfl rfl (by decide) (List.mem_cons_self _ _) rfl
    (fun xs h => PyVal.noConfusion h)

/-- C7 counterexample: an attributes object where "event_properties" is
PRESENT (with an empty object) and "properties" is non-empty. The claim says
the present "event_properties" must be preferred, i.e. the located bag
should be the empty object; the code falls through the falsy
"event_properties" to "properties" instead. -/
theorem c7_counterexample :
    hasKeyL [("event_properties", PyVal.vdict []),
      ("properties", PyVal.vdict [("review_id", PyVal.vstr "x")])] "event_properties" =
      true ∧
    lookupD [("event_properties", PyVal.vdict []),
      ("properties", PyVal.vdict [("review_id", PyVal.vstr "x")])] "event_properties"
      PyVal.vnone = PyVal.vdict [] ∧
    locateBag (PyVal.vdict [("event_properties", PyVal.vdict []),
      ("properties", PyVal.vdict [("review_id", PyVal.vstr "x")])]) =
      Except.ok (PyVal.vdict [("review_id", PyVal.vstr "x")]) ∧
    PyVal.vdict [("review_id", PyVal.vstr "x")] ≠ PyVal.vdict [] := by
  refine ⟨rfl, rfl, rfl, ?_⟩
  intro h
  injection h with h2
  exact List.noConfusion h2

/-- C7 amended: the bag is the value of "event_properties" when that value
is truthy (present and non-empty); otherwise — when "event_properties" is
absent OR present but falsy — the bag falls back to the value of
"properties" (default empty); when both keys are absent the bag is the empty
object. -/
theorem c7_bag_preference_amended (aes : Entries) :
    (truthy (lookupD aes "event_properties" (PyVal.vdict [])) = true →
      locateBag (PyVal.vdict aes) =
        Except.ok (lookupD aes "event_properties" (PyVal.vdict []))) ∧
    (truthy (lookupD aes "event_properties" (PyVal.vdict [])) = false →
      locateBag (PyVal.vdict aes) =
        Except.ok (lookupD aes "properties" (PyVal.vdict []))) ∧
    (hasKeyL aes "event_properties" = false → hasKeyL aes "properties" = false →
      locateBag (PyVal.vdict aes) = Except.ok (PyVal.vdict [])) :=
  ⟨locateBag_truthy aes, locateBag_falsy aes, locateBag_both_absent aes⟩

/-- Witness for the amended C7: a truthy "event_properties" is used, a
falsy-but-present one is passed over in favour of "properties", and two
absent keys give the empty bag. -/
theorem c7_bag_preference_amended_witness :
    locateBag (PyVal.vdict [("event_properties", PyVal.vdict [("a", PyVal.vint 1)])]) =
      Except.ok (lookupD [("event_properties", PyVal.vdict [("a", PyVal.vint 1)])]
        "event_properties" (PyVal.vdict [])) ∧
    locateBag (PyVal.vdict [("event_properties", PyVal.vdict []),
      ("properties", PyVal.vdict [("b", PyVal.vint 2)])]) =
      Except.ok (lookupD [("event_properties", PyVal.vdict []),
        ("properties", PyVal.vdict [("b", PyVal.vint 2)])] "properties"
        (PyVal.vdict [])) ∧
    locateBag (PyVal.vdict []) = Except.ok (PyVal.vdict []) :=
  ⟨(c7_bag_preference_amended [("event_properties", PyVal.vdict [("a", PyVal.vint 1)])]).1
      rfl,
   (c7_bag_preference_amended [("event_properties", PyVal.vdict []),
      ("properties", PyVal.vdict [("b", PyVal.vint 2)])]).2.1 rfl,
   (c7_bag_preference_amended []).2.2 rfl rfl⟩
